import Mathlib

/-!
Verification of the highdicom structured-reporting template engine
(`src/highdicom/sr/templates.py` and `src/highdicom/valuerep.py`).

The data model is a shallow embedding of the SR content-item tree:
coded concepts, content items with a value-type discriminant, and
container nesting.  Functions are translated statement-by-statement
from the Python source; fallible code returns `Except String`.
-/

set_option autoImplicit false

namespace HighDicom

/-- Coded concept: coding scheme designator plus code value.  Equality of
coded concepts in the source is by (scheme, value) only — the human-readable
meaning is descriptive and not identifying — so the meaning component is
omitted from the embedding. -/
structure Code where
  scheme : String
  value : String
  deriving DecidableEq, Repr

/-- Value type discriminant of an SR content item
(`highdicom.sr.enum.ValueTypeValues`). -/
inductive ValueType where
  | CODE | COMPOSITE | CONTAINER | DATETIME | IMAGE | NUM
  | PNAME | SCOORD | SCOORD3D | TEXT | UIDREF
  deriving DecidableEq, Repr

/-- Relationship type of a content item to its parent
(`highdicom.sr.enum.RelationshipTypeValues`). -/
inductive RelationshipType where
  | CONTAINS | HAS_ACQ_CONTEXT | HAS_CONCEPT_MOD | HAS_OBS_CONTEXT
  | HAS_PROPERTIES | INFERRED_FROM | SELECTED_FROM
  deriving DecidableEq, Repr

/-- Graphic type of a SCOORD content item
(`highdicom.sr.enum.GraphicTypeValues`). -/
inductive GraphicTypeValues where
  | CIRCLE | ELLIPSE | MULTIPOINT | POINT | POLYLINE
  deriving DecidableEq, Repr

/-- Graphic type of a SCOORD3D content item
(`highdicom.sr.enum.GraphicTypeValues3D`). -/
inductive GraphicTypeValues3D where
  | ELLIPSE | ELLIPSOID | MULTIPOINT | POINT | POLYGON | POLYLINE
  deriving DecidableEq, Repr

/-- Payload and header fields of one SR content item.  Fields that a given
value type does not use are carried with a neutral value, mirroring the
attribute-style access of the pydicom dataset representation
(`TextValue`, `UID`, value code, `GraphicType`,
`ReferencedSOPSequence[0].ReferencedSOPClassUID` / `...InstanceUID`,
`ContentTemplateSequence[0].TemplateIdentifier`). -/
structure ItemData where
  name : Code
  valueType : ValueType
  relationship : Option RelationshipType
  templateId : Option String
  textValue : String
  uidValue : String
  codeValue : Code
  graphicType : String
  refSopClassUid : String
  refSopInstanceUid : String
  deriving DecidableEq, Repr

/-- An SR content item: its fields together with the ordered child content
sequence (empty for items without a `ContentSequence`). -/
inductive CItem : Type where
  | mk (data : ItemData) (children : List CItem)

/-- The fields of a content item. -/
def CItem.data : CItem → ItemData
  | .mk d _ => d

/-- The direct children (`ContentSequence`) of a content item. -/
def CItem.children : CItem → List CItem
  | .mk _ cs => cs

/-- Build a content item without payload fields: name, value type and
relationship type, empty payload, no children. -/
def mkItem (name : Code) (vt : ValueType) (rel : Option RelationshipType) :
    CItem :=
  .mk
    { name := name
      valueType := vt
      relationship := rel
      templateId := none
      textValue := ""
      uidValue := ""
      codeValue := ⟨"", ""⟩
      graphicType := ""
      refSopClassUid := ""
      refSopInstanceUid := "" }
    []

namespace Codes

/-- DCM 125007 Measurement Group. -/
def MeasurementGroup : Code := ⟨"DCM", "125007"⟩
/-- DCM 111030 Image Region. -/
def ImageRegion : Code := ⟨"DCM", "111030"⟩
/-- DCM 121231 Volume Surface. -/
def VolumeSurface : Code := ⟨"DCM", "121231"⟩
/-- DCM 121191 Referenced Segment. -/
def ReferencedSegment : Code := ⟨"DCM", "121191"⟩
/-- DCM 121214 Referenced Segmentation Frame. -/
def ReferencedSegmentationFrame : Code := ⟨"DCM", "121214"⟩
/-- DCM 130488 Region in Space (`_REGION_IN_SPACE` in the source). -/
def RegionInSpace : Code := ⟨"DCM", "130488"⟩
/-- DCM 121071 Finding. -/
def Finding : Code := ⟨"DCM", "121071"⟩
/-- SCT 363698007 Finding Site. -/
def FindingSite : Code := ⟨"SCT", "363698007"⟩
/-- SCT 370129005 Measurement Method. -/
def MeasurementMethod : Code := ⟨"SCT", "370129005"⟩
/-- SCT 276214006 Finding category. -/
def FindingCategory : Code := ⟨"SCT", "276214006"⟩
/-- DCM 121401 Derivation. -/
def Derivation : Code := ⟨"DCM", "121401"⟩
/-- DCM 112039 Tracking Identifier. -/
def TrackingIdentifierCode : Code := ⟨"DCM", "112039"⟩
/-- DCM 112040 Tracking Unique Identifier. -/
def TrackingUniqueIdentifier : Code := ⟨"DCM", "112040"⟩
/-- DCM 121112 Source of Measurement. -/
def SourceOfMeasurement : Code := ⟨"DCM", "121112"⟩
/-- DCM 121233 Source Image for Segmentation. -/
def SourceImageForSegmentation : Code := ⟨"DCM", "121233"⟩
/-- SCT 260753009 Source (`_SOURCE` in the source module). -/
def SourceCode : Code := ⟨"SCT", "260753009"⟩
/-- DCM 126010 Imaging Measurements. -/
def ImagingMeasurements : Code := ⟨"DCM", "126010"⟩
/-- DCM 121005 Observer Type. -/
def ObserverType : Code := ⟨"DCM", "121005"⟩
/-- DCM 121006 Person. -/
def Person : Code := ⟨"DCM", "121006"⟩
/-- DCM 121007 Device. -/
def Device : Code := ⟨"DCM", "121007"⟩
/-- DCM 121024 Subject Class. -/
def SubjectClass : Code := ⟨"DCM", "121024"⟩
/-- SCT 123038009 Specimen. -/
def Specimen : Code := ⟨"SCT", "123038009"⟩
/-- SCT 303112003 Fetus. -/
def Fetus : Code := ⟨"SCT", "303112003"⟩

end Codes

/-- Modelled from the spec: `find_content_items`
(`highdicom.sr.utils`, not under `src/`), restricted to the
non-recursive form, the only form the template accessors use.  Returns, in
document order, the direct children of `parent` matching every supplied
filter: coded-concept equality on name, discriminant equality on value type,
tag equality on relationship type; absent filters match everything; zero
matches yields the empty list, never an error. -/
def findContentItems (parent : CItem) (name : Option Code)
    (valueType : Option ValueType) (relationship : Option RelationshipType) :
    List CItem :=
  parent.children.filter fun item =>
    (match name with
      | none => true
      | some n => item.data.name == n) &&
    (match valueType with
      | none => true
      | some vt => item.data.valueType == vt) &&
    (match relationship with
      | none => true
      | some rel => item.data.relationship == some rel)

/-- The running tuple of ROI-item counts of `_count_roi_items`:
image regions (SCOORD), image regions 3D (SCOORD3D), volume surfaces,
referenced segments, referenced segmentation frames, regions in space. -/
structure RoiCounts where
  imageRegion : Nat
  imageRegion3d : Nat
  volumeSurface : Nat
  referencedSegment : Nat
  referencedSegmentationFrame : Nat
  regionInSpace : Nat
  deriving DecidableEq, Repr

/-- The body of the counting loop of `_count_roi_items`: one pass over the
child items, incrementing the count matching each item's concept name and
value type. -/
def countRoiItemsLoop : List CItem → RoiCounts → RoiCounts
  | [], acc => acc
  | item :: rest, acc =>
    let acc :=
      if item.data.name == Codes.ImageRegion &&
          item.data.valueType == ValueType.SCOORD then
        { acc with imageRegion := acc.imageRegion + 1 }
      else acc
    let acc :=
      if item.data.name == Codes.ImageRegion &&
          item.data.valueType == ValueType.SCOORD3D then
        { acc with imageRegion3d := acc.imageRegion3d + 1 }
      else acc
    let acc :=
      if item.data.name == Codes.VolumeSurface &&
          item.data.valueType == ValueType.SCOORD3D then
        { acc with volumeSurface := acc.volumeSurface + 1 }
      else acc
    let acc :=
      if item.data.name == Codes.ReferencedSegment &&
          item.data.valueType == ValueType.IMAGE then
        { acc with referencedSegment := acc.referencedSegment + 1 }
      else acc
    let acc :=
      if item.data.name == Codes.ReferencedSegmentationFrame &&
          item.data.valueType == ValueType.IMAGE then
        { acc with referencedSegmentationFrame :=
            acc.referencedSegmentationFrame + 1 }
      else acc
    let acc :=
      if item.data.name == Codes.RegionInSpace &&
          item.data.valueType == ValueType.COMPOSITE then
        { acc with regionInSpace := acc.regionInSpace + 1 }
      else acc
    countRoiItemsLoop rest acc

/-- `_count_roi_items`: validates that the group item is a CONTAINER named
"Measurement Group" (raising `ValueError` otherwise) and counts the ROI
reference items among its direct children. -/
def countRoiItems (groupItem : CItem) : Except String RoiCounts :=
  if groupItem.data.valueType != ValueType.CONTAINER then
    .error
      "SR Content Item does not represent a measurement group because it does not have value type CONTAINER."
  else if groupItem.data.name != Codes.MeasurementGroup then
    .error
      "SR Content Item does not represent a measurement group because it does not have name Measurement Group."
  else
    .ok (countRoiItemsLoop groupItem.children ⟨0, 0, 0, 0, 0, 0⟩)

/-- `_contains_planar_rois`: whether a measurement-group item contains
planar ROIs, by the counting heuristic of the source. -/
def containsPlanarRois (groupItem : CItem) : Except String Bool := do
  let n ← countRoiItems groupItem
  if ((n.imageRegion + n.imageRegion3d == 1) ||
      n.referencedSegmentationFrame > 0 ||
      n.regionInSpace == 1) &&
      (n.volumeSurface == 0 && n.referencedSegment == 0) then
    return true
  return false

/-- `_contains_volumetric_rois`: whether a measurement-group item contains
volumetric ROIs, by the counting heuristic of the source. -/
def containsVolumetricRois (groupItem : CItem) : Except String Bool := do
  let n ← countRoiItems groupItem
  if (n.imageRegion > 1 ||
      n.referencedSegment > 0 ||
      n.volumeSurface > 0 ||
      n.regionInSpace > 0) &&
      (n.referencedSegmentationFrame == 0 && n.imageRegion3d == 0) then
    return true
  return false

/-- A child item counted by `_count_roi_items` as a 2D image region:
name "Image Region" with value type SCOORD. -/
def isImageRegionItem (i : CItem) : Bool :=
  i.data.name == Codes.ImageRegion && i.data.valueType == ValueType.SCOORD

/-- A child item counted by `_count_roi_items` as a 3D image region:
name "Image Region" with value type SCOORD3D. -/
def isImageRegion3dItem (i : CItem) : Bool :=
  i.data.name == Codes.ImageRegion && i.data.valueType == ValueType.SCOORD3D

/-- A child item counted by `_count_roi_items` as a volume surface. -/
def isVolumeSurfaceItem (i : CItem) : Bool :=
  i.data.name == Codes.VolumeSurface && i.data.valueType == ValueType.SCOORD3D

/-- A child item counted by `_count_roi_items` as a referenced segment. -/
def isReferencedSegmentItem (i : CItem) : Bool :=
  i.data.name == Codes.ReferencedSegment && i.data.valueType == ValueType.IMAGE

/-- A child item counted by `_count_roi_items` as a referenced segmentation
frame. -/
def isReferencedSegmentationFrameItem (i : CItem) : Bool :=
  i.data.name == Codes.ReferencedSegmentationFrame &&
    i.data.valueType == ValueType.IMAGE

/-- A child item counted by `_count_roi_items` as a region in space. -/
def isRegionInSpaceItem (i : CItem) : Bool :=
  i.data.name == Codes.RegionInSpace &&
    i.data.valueType == ValueType.COMPOSITE

/-- Build a TEXT content item (name, text value, relationship). -/
def mkTextItem (name : Code) (value : String)
    (rel : Option RelationshipType) : CItem :=
  .mk
    { name := name
      valueType := ValueType.TEXT
      relationship := rel
      templateId := none
      textValue := value
      uidValue := ""
      codeValue := ⟨"", ""⟩
      graphicType := ""
      refSopClassUid := ""
      refSopInstanceUid := "" }
    []

/-- Build a UIDREF content item (name, UID value, relationship). -/
def mkUidrefItem (name : Code) (value : String)
    (rel : Option RelationshipType) : CItem :=
  .mk
    { name := name
      valueType := ValueType.UIDREF
      relationship := rel
      templateId := none
      textValue := ""
      uidValue := value
      codeValue := ⟨"", ""⟩
      graphicType := ""
      refSopClassUid := ""
      refSopInstanceUid := "" }
    []

/-- Build a CODE content item (name, coded value, relationship). -/
def mkCodeItem (name : Code) (value : Code)
    (rel : Option RelationshipType) : CItem :=
  .mk
    { name := name
      valueType := ValueType.CODE
      relationship := rel
      templateId := none
      textValue := ""
      uidValue := ""
      codeValue := value
      graphicType := ""
      refSopClassUid := ""
      refSopInstanceUid := "" }
    []

/-- `TrackingIdentifier.__init__` (TID 4108): an optional TEXT "Tracking
Identifier" item followed by a UIDREF "Tracking Unique Identifier" item,
both with relationship HAS OBS CONTEXT.  (When the uid argument is omitted
the source generates a fresh UID; the embedding takes the uid as given.) -/
def trackingIdentifierItems (uid : String) (identifier : Option String) :
    List CItem :=
  (match identifier with
    | none => []
    | some ident =>
      [mkTextItem Codes.TrackingIdentifierCode ident
        (some RelationshipType.HAS_OBS_CONTEXT)]) ++
  [mkUidrefItem Codes.TrackingUniqueIdentifier uid
    (some RelationshipType.HAS_OBS_CONTEXT)]

/-- Error raised by `_MeasurementsAndQualitativeEvaluations.__init__` when
the tracking identifier template holds a single content item. -/
def trackingIdentifierLengthMsg : String :=
  "Argument tracking_identifier must include a human readable tracking identifier and a tracking unique identifier."

/-- `_MeasurementsAndQualitativeEvaluations.__init__` (TID 1501): builds
the "Measurement Group" CONTAINER item.  The tracking identifier template's
items are followed by the optional session, finding category, finding
type, method, finding sites, algorithm identification, time point context,
real-world value map, measurement and qualitative-evaluation items, in the
source's order.  Template sub-sequences arrive as flattened item lists, as
the source's `ContentSequence.extend` leaves them; `isinstance` checks of
the source are enforced by the embedding's types. -/
def measurementsGroupBase (trackingIdentifier : List CItem)
    (referencedRealWorldValueMap : Option CItem)
    (timePointContext : List CItem) (findingType : Option Code)
    (method : Option Code) (algorithmId : List CItem)
    (findingSites : List CItem) (session : Option String)
    (measurements : List (List CItem))
    (qualitativeEvaluations : List (List CItem))
    (findingCategory : Option Code) : Except String CItem :=
  if trackingIdentifier.length = 1 then .error trackingIdentifierLengthMsg
  else
    let content :=
      trackingIdentifier ++
      (match session with
        | none => []
        | some s =>
          [mkTextItem ⟨"NCIt", "C67447"⟩ s
            (some RelationshipType.HAS_OBS_CONTEXT)]) ++
      (match findingCategory with
        | none => []
        | some fc =>
          [mkCodeItem Codes.FindingCategory fc
            (some RelationshipType.CONTAINS)]) ++
      (match findingType with
        | none => []
        | some ft =>
          [mkCodeItem Codes.Finding ft (some RelationshipType.CONTAINS)]) ++
      (match method with
        | none => []
        | some m =>
          [mkCodeItem Codes.MeasurementMethod m
            (some RelationshipType.CONTAINS)]) ++
      findingSites ++ algorithmId ++ timePointContext ++
      (match referencedRealWorldValueMap with
        | none => []
        | some rwvm => [rwvm]) ++
      measurements.flatten ++ qualitativeEvaluations.flatten
    .ok
      (CItem.mk
        { name := Codes.MeasurementGroup
          valueType := ValueType.CONTAINER
          relationship := some RelationshipType.CONTAINS
          templateId := some "1501"
          textValue := ""
          uidValue := ""
          codeValue := ⟨"", ""⟩
          graphicType := ""
          refSopClassUid := ""
          refSopInstanceUid := "" }
        content)

/-- `Measurement.referenced_coordinates`: the SCOORD items followed by the
SCOORD3D items among the direct children of the measurement's NUM item
(the empty list when the measurement sequence is empty). -/
def measurementReferencedCoordinates (m : List CItem) : List CItem :=
  match m with
  | [] => []
  | numItem :: _ =>
    findContentItems numItem none (some ValueType.SCOORD) none ++
      findContentItems numItem none (some ValueType.SCOORD3D) none

/-- Error raised by `_ROIMeasurementsAndQualitativeEvaluations.__init__`
when no reference argument is provided. -/
def roiNoReferenceMsg : String :=
  "One of the following arguments must be provided: referenced_regions, referenced_volume_surface, or referenced_segment."

/-- Error raised by `_ROIMeasurementsAndQualitativeEvaluations.__init__`
when more than one reference argument is provided. -/
def roiMultipleReferenceMsg : String :=
  "Only one of the following arguments should be provided: referenced_regions, referenced_volume_surface, or referenced_segment."

/-- Error raised by `_ROIMeasurementsAndQualitativeEvaluations.__init__`
when the provided region list is empty. -/
def roiEmptyRegionsMsg : String :=
  "Argument referenced_region must have non-zero length."

/-- Error raised by `_ROIMeasurementsAndQualitativeEvaluations.__init__`
when a measurement carries referenced coordinates. -/
def roiMeasurementCoordinatesMsg : String :=
  "Referenced coordinates in measurements are not allowed."

/-- Append further children to a CONTAINER content item. -/
def CItem.appendChildren (i : CItem) (extra : List CItem) : CItem :=
  .mk i.data (i.children ++ extra)

/-- Replace the template identifier of a content item. -/
def CItem.withTemplateId (i : CItem) (t : String) : CItem :=
  .mk { i.data with templateId := some t } i.children

/-- `_ROIMeasurementsAndQualitativeEvaluations.__init__` (abstract base of
TID 1410/1411): the base TID 1501 constructor, then the
exactly-one-reference check over
{referenced regions, referenced volume surface, referenced segment},
then the geometric-purpose item and the reference items, then the check
that no measurement carries referenced coordinates.  A referenced segment
or volume surface is a template whose items are extended into the group. -/
def roiMeasurementsGroup (trackingIdentifier : List CItem)
    (referencedRegions : Option (List CItem))
    (referencedSegment : Option (List CItem))
    (referencedVolumeSurface : Option (List CItem))
    (referencedRealWorldValueMap : Option CItem)
    (timePointContext : List CItem) (findingType : Option Code)
    (method : Option Code) (algorithmId : List CItem)
    (findingSites : List CItem) (session : Option String)
    (measurements : List (List CItem))
    (qualitativeEvaluations : List (List CItem))
    (geometricPurpose : Option Code)
    (findingCategory : Option Code) : Except String CItem := do
  let groupSeq ← measurementsGroupBase trackingIdentifier
    referencedRealWorldValueMap timePointContext findingType method
    algorithmId findingSites session measurements qualitativeEvaluations
    findingCategory
  let nRefs :=
    (if referencedRegions.isSome then 1 else 0) +
    (if referencedVolumeSurface.isSome then 1 else 0) +
    (if referencedSegment.isSome then 1 else 0)
  if nRefs = 0 then .error roiNoReferenceMsg
  else if nRefs > 1 then .error roiMultipleReferenceMsg
  else do
    let groupSeq :=
      match geometricPurpose with
      | none => groupSeq
      | some gp =>
        groupSeq.appendChildren
          [mkCodeItem ⟨"DCM", "130400"⟩ gp (some RelationshipType.CONTAINS)]
    let groupSeq ←
      match referencedRegions with
      | some regions =>
        if regions.length = 0 then .error roiEmptyRegionsMsg
        else pure (groupSeq.appendChildren regions)
      | none =>
        match referencedVolumeSurface with
        | some vs => pure (groupSeq.appendChildren vs)
        | none =>
          match referencedSegment with
          | some seg => pure (groupSeq.appendChildren seg)
          | none => pure groupSeq
    if measurements.any
        (fun m => ¬(measurementReferencedCoordinates m).isEmpty) then
      .error roiMeasurementCoordinatesMsg
    else pure groupSeq

/-- Error raised by
`PlanarROIMeasurementsAndQualitativeEvaluations.__init__` when no
reference argument is provided. -/
def planarNoReferenceMsg : String :=
  "One of the following arguments must be provided: referenced_region, referenced_segment."

/-- Error raised by
`PlanarROIMeasurementsAndQualitativeEvaluations.__init__` when more than
one reference argument is provided. -/
def planarMultipleReferenceMsg : String :=
  "Only one of the following arguments should be provided: referenced_region, referenced_segment."

/-- `PlanarROIMeasurementsAndQualitativeEvaluations.__init__` (TID 1410):
its own exactly-one-of check over
{referenced region, referenced segment}, then the shared ROI base
constructor with the single region wrapped in a list, then the template
identifier override to 1410. -/
def planarRoiMeasurementsGroup (trackingIdentifier : List CItem)
    (referencedRegion : Option CItem)
    (referencedSegment : Option (List CItem))
    (referencedRealWorldValueMap : Option CItem)
    (timePointContext : List CItem) (findingType : Option Code)
    (method : Option Code) (algorithmId : List CItem)
    (findingSites : List CItem) (session : Option String)
    (measurements : List (List CItem))
    (qualitativeEvaluations : List (List CItem))
    (geometricPurpose : Option Code)
    (findingCategory : Option Code) : Except String CItem := do
  let nRefs :=
    (if referencedRegion.isSome then 1 else 0) +
    (if referencedSegment.isSome then 1 else 0)
  if nRefs = 0 then .error planarNoReferenceMsg
  else if nRefs > 1 then .error planarMultipleReferenceMsg
  else do
    let g ← roiMeasurementsGroup trackingIdentifier
      (referencedRegion.map (fun r => [r])) referencedSegment none
      referencedRealWorldValueMap timePointContext findingType method
      algorithmId findingSites session measurements qualitativeEvaluations
      geometricPurpose findingCategory
    pure (g.withTemplateId "1410")

/-- Error raised by
`VolumetricROIMeasurementsAndQualitativeEvaluations.__init__` when a 3D
image region is supplied among the referenced regions. -/
def volumetricRegion3dMsg : String :=
  "Including items of type ImageRegion3D in referenced_regions is invalid within a volumetric ROI measurement group."

/-- `VolumetricROIMeasurementsAndQualitativeEvaluations.__init__`
(TID 1411): rejects 3D image regions among the referenced regions
(`isinstance` check in the source, visible in the embedding as the SCOORD3D
value type), then the shared ROI base constructor, then the template
identifier override to 1411. -/
def volumetricRoiMeasurementsGroup (trackingIdentifier : List CItem)
    (referencedRegions : Option (List CItem))
    (referencedVolumeSurface : Option (List CItem))
    (referencedSegment : Option (List CItem))
    (referencedRealWorldValueMap : Option CItem)
    (timePointContext : List CItem) (findingType : Option Code)
    (method : Option Code) (algorithmId : List CItem)
    (findingSites : List CItem) (session : Option String)
    (measurements : List (List CItem))
    (qualitativeEvaluations : List (List CItem))
    (geometricPurpose : Option Code)
    (findingCategory : Option Code) : Except String CItem := do
  match referencedRegions with
  | some regions =>
    if regions.any (·.data.valueType == ValueType.SCOORD3D) then
      .error volumetricRegion3dMsg
    else pure ()
  | none => pure ()
  let g ← roiMeasurementsGroup trackingIdentifier referencedRegions
    referencedSegment referencedVolumeSurface referencedRealWorldValueMap
    timePointContext findingType method algorithmId findingSites session
    measurements qualitativeEvaluations geometricPurpose findingCategory
  pure (g.withTemplateId "1411")

/-- A concrete 2D image-region item. -/
def exRegion : CItem :=
  mkItem Codes.ImageRegion ValueType.SCOORD (some RelationshipType.CONTAINS)

/-- Modelled from the spec: the generic dataset (wire) representation of a
leaf content item.  The serialization mechanics live in
`highdicom.sr.value_types` (not under `src/`); the spec fixes the
attribute-style fields `ValueType`, `ConceptNameCodeSequence`,
`RelationshipType`, `TextValue` and `UID`. -/
structure WireItem where
  valueTypeField : String
  conceptName : Code
  relationshipField : String
  textValueField : String
  uidField : String
  deriving DecidableEq, Repr

/-- String encoding of a value type on the wire. -/
def valueTypeToStr : ValueType → String
  | .CODE => "CODE"
  | .COMPOSITE => "COMPOSITE"
  | .CONTAINER => "CONTAINER"
  | .DATETIME => "DATETIME"
  | .IMAGE => "IMAGE"
  | .NUM => "NUM"
  | .PNAME => "PNAME"
  | .SCOORD => "SCOORD"
  | .SCOORD3D => "SCOORD3D"
  | .TEXT => "TEXT"
  | .UIDREF => "UIDREF"

/-- String encoding of a relationship type on the wire (the root item
carries none, encoded as the empty string). -/
def relationshipToStr : Option RelationshipType → String
  | none => ""
  | some .CONTAINS => "CONTAINS"
  | some .HAS_ACQ_CONTEXT => "HAS ACQ CONTEXT"
  | some .HAS_CONCEPT_MOD => "HAS CONCEPT MOD"
  | some .HAS_OBS_CONTEXT => "HAS OBS CONTEXT"
  | some .HAS_PROPERTIES => "HAS PROPERTIES"
  | some .INFERRED_FROM => "INFERRED FROM"
  | some .SELECTED_FROM => "SELECTED FROM"

/-- Parse a relationship type from the wire. -/
def relationshipOfStr (s : String) :
    Except String (Option RelationshipType) :=
  if s = "" then .ok none
  else if s = "CONTAINS" then .ok (some .CONTAINS)
  else if s = "HAS ACQ CONTEXT" then .ok (some .HAS_ACQ_CONTEXT)
  else if s = "HAS CONCEPT MOD" then .ok (some .HAS_CONCEPT_MOD)
  else if s = "HAS OBS CONTEXT" then .ok (some .HAS_OBS_CONTEXT)
  else if s = "HAS PROPERTIES" then .ok (some .HAS_PROPERTIES)
  else if s = "INFERRED FROM" then .ok (some .INFERRED_FROM)
  else if s = "SELECTED FROM" then .ok (some .SELECTED_FROM)
  else .error "Unknown relationship type."

/-- Modelled from the spec: serialization of a leaf content item to the
generic dataset format, copying the fields the TEXT and UIDREF variants
carry. -/
def leafToDataset (i : CItem) : WireItem :=
  { valueTypeField := valueTypeToStr i.data.valueType
    conceptName := i.data.name
    relationshipField := relationshipToStr i.data.relationship
    textValueField := i.data.textValue
    uidField := i.data.uidValue }

/-- Modelled from the spec: parsing (`from_sequence` / `from_dataset`) of a
leaf TEXT or UIDREF content item from the generic dataset format,
dispatching on the wire value type; a malformed value type is a parse
error, never silently coerced. -/
def leafFromDataset (d : WireItem) : Except String CItem := do
  let rel ← relationshipOfStr d.relationshipField
  if d.valueTypeField = "TEXT" then
    .ok (mkTextItem d.conceptName d.textValueField rel)
  else if d.valueTypeField = "UIDREF" then
    .ok (mkUidrefItem d.conceptName d.uidField rel)
  else .error "Unsupported value type for a leaf content item."

/-- Python list slicing `l[a:b]` with a non-negative start and a possibly
negative stop index: a negative stop counts from the end of the list. -/
def pySlice (l : List CItem) (a : Nat) (b : Int) : List CItem :=
  let stop : Nat :=
    if b < 0 then ((l.length : Int) + b).toNat else b.toNat
  (l.take stop).drop a

/-- The marker positions of `get_observer_contexts` /
`get_subject_contexts`: each root child carrying the marker concept name,
paired with the index one past its position
(`enumerate(..., 1)` in the observer method, `i + 1` in the subject
method — the same indices). -/
def contextMarkers (markerName : Code) (root : List CItem) :
    List (Nat × CItem) :=
  (root.enum.filter (fun p => p.2.data.name == markerName)).map
    (fun p => (p.1 + 1, p.2))

/-- Error raised when a marker item carries an unexpected coded value
("Unexpected observer type" / "Unexpected subject class"). -/
def unexpectedContextValueMsg : String := "Unexpected context type value."

/-- The slice stop index for the k-th marker: the stored index of the next
marker, or the sentinel -1 after the last marker. -/
def nextMarkerIdx (ms : List (Nat × CItem)) (k : Nat) : Int :=
  match ms[k + 1]? with
  | some q => (q.1 : Int)
  | none => -1

/-- One iteration of the context-extraction loop: skip a marker whose
value fails the optional filter (it still bounds its neighbors' slices),
reject a marker whose value is not an allowed context type, and otherwise
emit the marker and the root-sequence slice from its stored index to the
next marker's stored index (sentinel -1 after the last marker).  The
per-value `from_sequence` parsing of the slice is outside this model. -/
def contextSliceBody (root : List CItem) (ms : List (Nat × CItem))
    (allowedValues : List Code) (filterValue : Option Code)
    (acc : List (CItem × List CItem)) (q : Nat × (Nat × CItem)) :
    Except String (List (CItem × List CItem)) :=
  let k := q.1
  let index := q.2.1
  let item := q.2.2
  let handle : Except String (List (CItem × List CItem)) :=
    if allowedValues.contains item.data.codeValue then
      pure (acc ++ [(item, pySlice root index (nextMarkerIdx ms k))])
    else .error unexpectedContextValueMsg
  match filterValue with
  | some f => if item.data.codeValue ≠ f then pure acc else handle
  | none => handle

/-- The positional-slicing core of `get_observer_contexts` /
`get_subject_contexts`: locate the marker items, then slice the flat root
sequence between consecutive stored marker indices, the last slice using
the sentinel stop -1. -/
def contextSlices (markerName : Code) (allowedValues : List Code)
    (filterValue : Option Code) (root : List CItem) :
    Except String (List (CItem × List CItem)) :=
  let ms := contextMarkers markerName root
  ms.enum.foldlM (contextSliceBody root ms allowedValues filterValue) []

/-- `MeasurementReport.get_observer_contexts`, reduced to its marker-and-
slice protocol: markers are "Observer Type" items, allowed values Device
and Person. -/
def getObserverContextSlices (root : List CItem)
    (observerType : Option Code) :
    Except String (List (CItem × List CItem)) :=
  contextSlices Codes.ObserverType [Codes.Device, Codes.Person]
    observerType root

/-- `MeasurementReport.get_subject_contexts`, reduced to its marker-and-
slice protocol: markers are "Subject Class" items, allowed values
Specimen, Fetus and Device. -/
def getSubjectContextSlices (root : List CItem)
    (subjectClass : Option Code) :
    Except String (List (CItem × List CItem)) :=
  contextSlices Codes.SubjectClass
    [Codes.Specimen, Codes.Fetus, Codes.Device] subjectClass root

/-- A concrete root sequence: an Observer Type marker followed by two
further items. -/
def exObsMarker : CItem :=
  mkCodeItem Codes.ObserverType Codes.Person
    (some RelationshipType.HAS_OBS_CONTEXT)

/-- The item right after the marker in the concrete root sequence. -/
def exObsAttr : CItem :=
  mkTextItem ⟨"DCM", "121008"⟩ "observer" (some RelationshipType.HAS_OBS_CONTEXT)

/-- The final item of the concrete root sequence. -/
def exObsLast : CItem :=
  mkCodeItem Codes.Finding ⟨"SCT", "1"⟩ (some RelationshipType.CONTAINS)

/-- The concrete root sequence. -/
def exObsRoot : List CItem := [exObsMarker, exObsAttr, exObsLast]

/-- `_MeasurementsAndQualitativeEvaluations.method`: the value of the
first CODE "Measurement Method" child of the group item; `None` when
absent (when several exist the source logs a warning and keeps the
first). -/
def groupMethod (group : CItem) : Option Code :=
  match findContentItems group (some Codes.MeasurementMethod)
      (some ValueType.CODE) none with
  | [] => none
  | m :: _ => some m.data.codeValue

/-- `_MeasurementsAndQualitativeEvaluations.tracking_identifier`: value of
the first TEXT "Tracking Identifier" child, `None` when absent. -/
def groupTrackingIdentifier (group : CItem) : Option String :=
  match findContentItems group (some Codes.TrackingIdentifierCode)
      (some ValueType.TEXT) none with
  | [] => none
  | m :: _ => some m.data.textValue

/-- `_MeasurementsAndQualitativeEvaluations.tracking_uid`: value of the
first UIDREF "Tracking Unique Identifier" child, `None` when absent. -/
def groupTrackingUid (group : CItem) : Option String :=
  match findContentItems group (some Codes.TrackingUniqueIdentifier)
      (some ValueType.UIDREF) none with
  | [] => none
  | m :: _ => some m.data.uidValue

/-- `_MeasurementsAndQualitativeEvaluations.finding_category`: value of
the first CODE "Finding category" child, `None` when absent. -/
def groupFindingCategory (group : CItem) : Option Code :=
  match findContentItems group (some Codes.FindingCategory)
      (some ValueType.CODE) none with
  | [] => none
  | m :: _ => some m.data.codeValue

/-- `_MeasurementsAndQualitativeEvaluations.finding_sites`: all CODE
"Finding Site" children, the empty list when absent. -/
def groupFindingSites (group : CItem) : List CItem :=
  findContentItems group (some Codes.FindingSite) (some ValueType.CODE)
    none

/-- `Measurement.method`: the value of the first CODE "Measurement Method"
child of the measurement's NUM item; `None` when absent (the source's
`hasattr` guard on a missing `ContentSequence` is the childless case). -/
def measurementMethod (numItem : CItem) : Option Code :=
  match findContentItems numItem (some Codes.MeasurementMethod)
      (some ValueType.CODE) none with
  | [] => none
  | m :: _ => some m.data.codeValue

/-- `Measurement.derivation`: the value of the first CODE "Derivation"
child of the NUM item, `None` when absent. -/
def measurementDerivation (numItem : CItem) : Option Code :=
  match findContentItems numItem (some Codes.Derivation)
      (some ValueType.CODE) none with
  | [] => none
  | m :: _ => some m.data.codeValue

/-- `Measurement.referenced_images`: all IMAGE "Source of Measurement"
children of the NUM item, the empty list when absent. -/
def measurementReferencedImages (numItem : CItem) : List CItem :=
  findContentItems numItem (some Codes.SourceOfMeasurement)
    (some ValueType.IMAGE) none

/-- Build a CONTAINER content item with the given name and children. -/
def mkContainer (name : Code) (children : List CItem) : CItem :=
  .mk
    { name := name
      valueType := ValueType.CONTAINER
      relationship := some RelationshipType.CONTAINS
      templateId := none
      textValue := ""
      uidValue := ""
      codeValue := ⟨"", ""⟩
      graphicType := ""
      refSopClassUid := ""
      refSopInstanceUid := "" }
    children

/-- A concrete group item with two CODE "Measurement Method" children. -/
def exGroupTwoMethods : CItem :=
  mkContainer Codes.MeasurementGroup
    [mkCodeItem Codes.MeasurementMethod ⟨"SCT", "first"⟩
      (some RelationshipType.CONTAINS),
     mkCodeItem Codes.MeasurementMethod ⟨"SCT", "second"⟩
      (some RelationshipType.CONTAINS)]

/-- The error taxonomy of `check_person_name`. -/
inductive PNError where
  | typeError | valueError
  deriving DecidableEq, Repr

/-- The dynamic argument of `check_person_name`: a `str`, a pydicom
`PersonName` (carrying its string form), or a value of any other type. -/
inductive PNInput where
  | str (s : String)
  | personName (s : String)
  | otherType
  deriving DecidableEq, Repr

/-- `check_person_name` (`highdicom/valuerep.py`): TypeError for a
non-string, non-PersonName argument; ValueError for a non-empty name
containing no caret separator; otherwise no exception. -/
def check_person_name : PNInput → Except PNError Unit
  | .otherType => .error .typeError
  | .str s =>
    if ¬(s.contains '^') ∧ s ≠ "" then .error .valueError else .ok ()
  | .personName s =>
    if ¬(s.contains '^') ∧ s ≠ "" then .error .valueError else .ok ()

/-- `ref_type_value_type_map`: the value types expected for each ROI
reference concept name (names outside the map yield the empty list; the
allowed reference-type sets are always subsets of the map's keys). -/
def refTypeValueTypes (name : Code) : List ValueType :=
  if name == Codes.ImageRegion then [ValueType.SCOORD, ValueType.SCOORD3D]
  else if name == Codes.VolumeSurface then [ValueType.SCOORD3D]
  else if name == Codes.ReferencedSegment then [ValueType.IMAGE]
  else if name == Codes.ReferencedSegmentationFrame then [ValueType.IMAGE]
  else if name == Codes.RegionInSpace then [ValueType.COMPOSITE]
  else []

/-- Error raised by `_get_roi_reference_items` when no valid reference item
is found. -/
def noRoiReferenceMsg : String :=
  "No content item representing a valid ROI reference was found."

/-- Error raised by `_get_roi_reference_items` when reference items of two
different concept names are found. -/
def differentRefTypesMsg : String :=
  "Multiple different reference types were found."

/-- Error raised by `_get_roi_reference_items` when a singular reference
type has more than one item (the source interpolates the concept meaning
into this message; the embedding carries no meanings). -/
def multipleRefItemsMsg : String :=
  "Multiple different reference items of this type are not permitted."

/-- The scanning loop of `_get_roi_reference_items` over the group's direct
children, carrying the reference type seen so far and the accumulated
matching items. -/
def getRoiReferenceItemsLoop (allowed : List Code) :
    List CItem → Option Code → List CItem →
    Except String (Option Code × List CItem)
  | [], refType, acc => .ok (refType, acc)
  | item :: rest, refType, acc =>
    if item.data.relationship ≠ some RelationshipType.CONTAINS then
      getRoiReferenceItemsLoop allowed rest refType acc
    else if item.data.name ∈ allowed then
      if item.data.valueType ∈ refTypeValueTypes item.data.name then
        match refType with
        | none =>
          getRoiReferenceItemsLoop allowed rest (some item.data.name)
            (acc ++ [item])
        | some r =>
          if item.data.name ≠ r then .error differentRefTypesMsg
          else if r ≠ Codes.ImageRegion ∧ r ≠ Codes.VolumeSurface then
            .error multipleRefItemsMsg
          else getRoiReferenceItemsLoop allowed rest refType (acc ++ [item])
      else getRoiReferenceItemsLoop allowed rest refType acc
    else getRoiReferenceItemsLoop allowed rest refType acc

/-- `_get_roi_reference_items`: collect the ROI reference items of a
measurement group among the direct CONTAINS children whose concept name is
allowed and whose value type matches the expected type; error when no item
is found.  (The `getD` default is unreachable: the loop's reference type is
set whenever its accumulator is non-empty.) -/
def getRoiReferenceItems (group : CItem) (allowed : List Code) :
    Except String (Code × List CItem) :=
  match getRoiReferenceItemsLoop allowed group.children none [] with
  | .error e => .error e
  | .ok (refType, items) =>
    if items.isEmpty then .error noRoiReferenceMsg
    else .ok (refType.getD ⟨"", ""⟩, items)

/-- A direct child counted as an ROI reference item by
`_get_roi_reference_items`: relationship CONTAINS, allowed concept name,
and the expected value type for that name. -/
def isRoiReferenceMatch (allowed : List Code) (i : CItem) : Bool :=
  decide (i.data.relationship = some RelationshipType.CONTAINS ∧
    i.data.name ∈ allowed ∧
    i.data.valueType ∈ refTypeValueTypes i.data.name)

/-- `_contains_code_items`: whether the parent holds a CODE child of the
given concept name (and relationship) whose value matches the optional
filter value. -/
def containsCodeItems (parent : CItem) (name : Code) (value : Option Code)
    (relationship : Option RelationshipType) : Bool :=
  (findContentItems parent (some name) (some ValueType.CODE)
    relationship).any fun item =>
      match value with
      | none => true
      | some v => item.data.codeValue == v

/-- `_contains_uidref_items`: whether the parent holds a UIDREF child of
the given concept name (and relationship) whose UID matches the optional
filter value. -/
def containsUidrefItems (parent : CItem) (name : Code)
    (value : Option String) (relationship : Option RelationshipType) :
    Bool :=
  (findContentItems parent (some name) (some ValueType.UIDREF)
    relationship).any fun item =>
      match value with
      | none => true
      | some v => item.data.uidValue == v

/-- `_contains_image_items`: whether the parent holds an IMAGE child of
the given optional concept name (and relationship) whose referenced SOP
class and instance UIDs match the supplied filters. -/
def containsImageItems (parent : CItem) (name : Option Code)
    (referencedSopClassUid referencedSopInstanceUid : Option String)
    (relationship : Option RelationshipType) : Bool :=
  (findContentItems parent name (some ValueType.IMAGE)
    relationship).any fun item =>
      (match referencedSopClassUid with
        | none => true
        | some u => item.data.refSopClassUid == u) &&
      (match referencedSopInstanceUid with
        | none => true
        | some u => item.data.refSopInstanceUid == u)

/-- `MeasurementReport._find_measurement_groups`: the "Measurement Group"
CONTAINER children of the first "Imaging Measurements" CONTAINER child of
the root item; the empty list when no Imaging Measurements container
exists. -/
def findMeasurementGroups (root : CItem) : List CItem :=
  match findContentItems root (some Codes.ImagingMeasurements)
      (some ValueType.CONTAINER) none with
  | [] => []
  | im :: _ =>
    findContentItems im (some Codes.MeasurementGroup)
      (some ValueType.CONTAINER) none

/-- `GraphicTypeValues(...)` enum construction from the stored string;
an unknown string raises. -/
def parseGraphicType (s : String) : Except String GraphicTypeValues :=
  if s = "CIRCLE" then .ok .CIRCLE
  else if s = "ELLIPSE" then .ok .ELLIPSE
  else if s = "MULTIPOINT" then .ok .MULTIPOINT
  else if s = "POINT" then .ok .POINT
  else if s = "POLYLINE" then .ok .POLYLINE
  else .error "Unknown graphic type."

/-- `GraphicTypeValues3D(...)` enum construction from the stored string;
an unknown string raises. -/
def parseGraphicType3D (s : String) : Except String GraphicTypeValues3D :=
  if s = "ELLIPSE" then .ok .ELLIPSE
  else if s = "ELLIPSOID" then .ok .ELLIPSOID
  else if s = "MULTIPOINT" then .ok .MULTIPOINT
  else if s = "POINT" then .ok .POINT
  else if s = "POLYGON" then .ok .POLYGON
  else if s = "POLYLINE" then .ok .POLYLINE
  else .error "Unknown 3D graphic type."

/-- `PlanarROIMeasurementsAndQualitativeEvaluations.
_allowed_roi_reference_types` (a set in the source; only membership is
used). -/
def planarAllowedRefTypes : List Code :=
  [Codes.ImageRegion, Codes.ReferencedSegmentationFrame,
    Codes.RegionInSpace]

/-- Error raised by `_get_planar_roi_reference_item` when multiple
reference items are found in a planar group. -/
def multiplePlanarRefItemsMsg : String :=
  "Multiple reference items were found in the planar ROI measurements group."

/-- `_get_planar_roi_reference_item`: the single ROI reference item of a
planar measurement group: the shared extraction restricted to the planar
allowed reference types, rejecting multiple items. -/
def getPlanarRoiReferenceItem (group : CItem) :
    Except String (Code × CItem) := do
  let (refType, items) ← getRoiReferenceItems group planarAllowedRefTypes
  match items with
  | [i] => pure (refType, i)
  | [] => .error noRoiReferenceMsg
  | _ => .error multiplePlanarRefItemsMsg

/-- The `matches_uids` computation of `get_planar_roi_measurement_groups`:
direct SOP references of a referenced-segmentation-frame or
region-in-space item, source images inside a 2D image region, or the
group-level source image for segmentation. -/
def planarUidsMatch (group refItem : CItem) (foundRefType : Code)
    (referencedSopClassUid referencedSopInstanceUid : Option String) :
    Bool :=
  let b1 :=
    (foundRefType == Codes.ReferencedSegmentationFrame ||
      foundRefType == Codes.RegionInSpace) &&
    (match referencedSopInstanceUid with
      | none => true
      | some u => refItem.data.refSopInstanceUid == u) &&
    (match referencedSopClassUid with
      | none => true
      | some u => refItem.data.refSopClassUid == u)
  let b2 :=
    (foundRefType == Codes.ImageRegion &&
      refItem.data.valueType == ValueType.SCOORD) &&
    containsImageItems refItem none referencedSopClassUid
      referencedSopInstanceUid (some RelationshipType.SELECTED_FROM)
  let b3 :=
    (foundRefType == Codes.ReferencedSegmentationFrame) &&
    containsImageItems group (some Codes.SourceImageForSegmentation)
      referencedSopClassUid referencedSopInstanceUid
      (some RelationshipType.CONTAINS)
  b1 || b2 || b3

/-- The per-group filter evaluation of
`get_planar_roi_measurement_groups`: the matches list built from the
supplied filters — finding type, finding site, tracking UID, then (after
extracting the group's single ROI reference item) reference type, graphic
type and referenced SOP UIDs — accepted when all entries are true
(`all([])` is true, so no filters accepts). -/
def planarGroupMatches (trackingUid : Option String)
    (findingType findingSite referenceType : Option Code)
    (graphicType : Option (GraphicTypeValues ⊕ GraphicTypeValues3D))
    (referencedSopInstanceUid referencedSopClassUid : Option String)
    (g : CItem) : Except String Bool := do
  let m1 : List Bool :=
    findingType.elim []
      (fun ft => [containsCodeItems g Codes.Finding (some ft)
        (some RelationshipType.CONTAINS)])
  let m2 : List Bool :=
    findingSite.elim []
      (fun fs => [containsCodeItems g Codes.FindingSite (some fs)
        (some RelationshipType.HAS_CONCEPT_MOD)])
  let m3 : List Bool :=
    trackingUid.elim []
      (fun u => [containsUidrefItems g Codes.TrackingUniqueIdentifier
        (some u) (some RelationshipType.HAS_OBS_CONTEXT)])
  if referenceType.isSome || graphicType.isSome ||
      referencedSopClassUid.isSome || referencedSopInstanceUid.isSome then
    do
    let (foundRefType, refItem) ← getPlanarRoiReferenceItem g
    let m4 : List Bool :=
      referenceType.elim [] (fun rt => [foundRefType == rt])
    let m5 : List Bool ←
      match graphicType with
      | none => pure []
      | some (.inl gt) =>
        if refItem.data.valueType = ValueType.SCOORD then do
          let fgt ← parseGraphicType refItem.data.graphicType
          pure [fgt == gt]
        else pure [false]
      | some (.inr gt) =>
        if refItem.data.valueType = ValueType.SCOORD3D then do
          let fgt ← parseGraphicType3D refItem.data.graphicType
          pure [fgt == gt]
        else pure [false]
    let m6 : List Bool :=
      if referencedSopInstanceUid.isSome ||
          referencedSopClassUid.isSome then
        [planarUidsMatch g refItem foundRefType referencedSopClassUid
          referencedSopInstanceUid]
      else []
    pure ((m1 ++ m2 ++ m3 ++ m4 ++ m5 ++ m6).all id)
  else pure ((m1 ++ m2 ++ m3).all id)

/-- The argument-validation prologue of
`get_planar_roi_measurement_groups` (graphic-type restrictions, the 3D
graphic-type / SOP-UID incompatibility, reference-type membership and the
reference-type / graphic-type incompatibility). -/
def validatePlanarArgs (referenceType : Option Code)
    (graphicType : Option (GraphicTypeValues ⊕ GraphicTypeValues3D))
    (referencedSopInstanceUid referencedSopClassUid : Option String) :
    Except String Unit := do
  match graphicType with
  | none => pure ()
  | some (.inl gt) =>
    if gt = GraphicTypeValues.MULTIPOINT then
      .error "Graphic type MULTIPOINT is not valid for planar image regions."
    else pure ()
  | some (.inr gt) =>
    if gt = GraphicTypeValues3D.MULTIPOINT ∨
        gt = GraphicTypeValues3D.POLYLINE ∨
        gt = GraphicTypeValues3D.ELLIPSOID then
      .error "This 3D graphic type is not valid for planar image regions."
    else if referencedSopClassUid.isSome ||
        referencedSopInstanceUid.isSome then
      .error "Referenced SOP UIDs cannot be combined with a 3D graphic type."
    else pure ()
  match referenceType with
  | none => pure ()
  | some rt =>
    if ¬planarAllowedRefTypes.contains rt then
      .error "Invalid reference type for planar measurement groups."
    else if graphicType.isSome ∧ rt ≠ Codes.ImageRegion then
      .error "A graphic type is invalid with this reference type."
    else pure ()

/-- The shared candidate-scan loop of the measurement-group getters: for
each group, evaluate the classification, then for classified candidates
the filter predicate, collecting the passing groups in order (the
source's `continue` skips). -/
def filterGroupsM (classify pass : CItem → Except String Bool) :
    List CItem → List CItem → Except String (List CItem)
  | [], acc => .ok acc
  | g :: gs, acc => do
    let c ← classify g
    if c then do
      let p ← pass g
      if p then filterGroupsM classify pass gs (acc ++ [g])
      else filterGroupsM classify pass gs acc
    else filterGroupsM classify pass gs acc

/-- The candidate test of `get_planar_roi_measurement_groups`: an explicit
template identifier decides (1410), otherwise the classification
heuristic `_contains_planar_rois`. -/
def planarClassify (g : CItem) : Except String Bool :=
  match g.data.templateId with
  | some t => pure (t = "1410")
  | none => containsPlanarRois g

/-- `MeasurementReport.get_planar_roi_measurement_groups`: validate the
filter arguments, find the measurement groups, keep those classified as
planar (template identifier 1410 or the heuristic) that pass every
supplied filter. -/
def getPlanarRoiMeasurementGroups (root : CItem)
    (trackingUid : Option String)
    (findingType findingSite referenceType : Option Code)
    (graphicType : Option (GraphicTypeValues ⊕ GraphicTypeValues3D))
    (referencedSopInstanceUid referencedSopClassUid : Option String) :
    Except String (List CItem) := do
  validatePlanarArgs referenceType graphicType referencedSopInstanceUid
    referencedSopClassUid
  filterGroupsM planarClassify
    (planarGroupMatches trackingUid findingType findingSite referenceType
      graphicType referencedSopInstanceUid referencedSopClassUid)
    (findMeasurementGroups root) []

/-- The candidate test of `get_image_measurement_groups`: an explicit
template identifier decides (1501), otherwise a group is a candidate when
neither ROI heuristic classifies it. -/
def imageClassify (g : CItem) : Except String Bool :=
  match g.data.templateId with
  | some t => pure (t = "1501")
  | none => do
    let p ← containsPlanarRois g
    let v ← containsVolumetricRois g
    pure (¬(p || v))

/-- The per-group filter evaluation of `get_image_measurement_groups`:
finding type, finding site, tracking UID, and group-level "Source" IMAGE
children for the referenced SOP UIDs. -/
def imageGroupMatches (trackingUid : Option String)
    (findingType findingSite : Option Code)
    (referencedSopInstanceUid referencedSopClassUid : Option String)
    (g : CItem) : Bool :=
  let m1 : List Bool :=
    findingType.elim []
      (fun ft => [containsCodeItems g Codes.Finding (some ft)
        (some RelationshipType.CONTAINS)])
  let m2 : List Bool :=
    findingSite.elim []
      (fun fs => [containsCodeItems g Codes.FindingSite (some fs)
        (some RelationshipType.HAS_CONCEPT_MOD)])
  let m3 : List Bool :=
    trackingUid.elim []
      (fun u => [containsUidrefItems g Codes.TrackingUniqueIdentifier
        (some u) (some RelationshipType.HAS_OBS_CONTEXT)])
  let m4 : List Bool :=
    if referencedSopInstanceUid.isSome ||
        referencedSopClassUid.isSome then
      [containsImageItems g (some Codes.SourceCode) referencedSopClassUid
        referencedSopInstanceUid (some RelationshipType.CONTAINS)]
    else []
  (m1 ++ m2 ++ m3 ++ m4).all id

/-- `MeasurementReport.get_image_measurement_groups`: find the measurement
groups, keep those classified as plain TID 1501 groups (explicit template
identifier or neither ROI heuristic firing) that pass every supplied
filter. -/
def getImageMeasurementGroups (root : CItem) (trackingUid : Option String)
    (findingType findingSite : Option Code)
    (referencedSopInstanceUid referencedSopClassUid : Option String) :
    Except String (List CItem) :=
  filterGroupsM imageClassify
    (fun g => .ok (imageGroupMatches trackingUid findingType findingSite
      referencedSopInstanceUid referencedSopClassUid g))
    (findMeasurementGroups root) []

/-- The planar candidate test as a total boolean over measurement-group
items (equivalent to `planarClassify` wherever the latter succeeds). -/
def isPlanarCandidate (g : CItem) : Bool :=
  match g.data.templateId with
  | some t => t == "1410"
  | none =>
    match containsPlanarRois g with
    | .ok b => b
    | .error _ => false

/-- The plain-group candidate test as a total boolean. -/
def isImageCandidate (g : CItem) : Bool :=
  match g.data.templateId with
  | some t => t == "1501"
  | none =>
    match containsPlanarRois g, containsVolumetricRois g with
    | .ok p, .ok v => !(p || v)
    | _, _ => false

/-- Whether a fallible boolean computation succeeded with true. -/
def isOkTrue (r : Except String Bool) : Bool :=
  match r with
  | .ok true => true
  | _ => false

/-- A concrete finding code. -/
def exFindingValue : Code := ⟨"SCT", "108369006"⟩

/-- A concrete planar measurement group with an explicit 1410 template
identifier and a finding-type item. -/
def exGroup1410 : CItem :=
  .mk
    { name := Codes.MeasurementGroup
      valueType := ValueType.CONTAINER
      relationship := some RelationshipType.CONTAINS
      templateId := some "1410"
      textValue := ""
      uidValue := ""
      codeValue := ⟨"", ""⟩
      graphicType := ""
      refSopClassUid := ""
      refSopInstanceUid := "" }
    [mkCodeItem Codes.Finding exFindingValue
      (some RelationshipType.CONTAINS)]

/-- A concrete plain measurement group with an explicit 1501 template
identifier. -/
def exGroup1501 : CItem :=
  .mk
    { name := Codes.MeasurementGroup
      valueType := ValueType.CONTAINER
      relationship := some RelationshipType.CONTAINS
      templateId := some "1501"
      textValue := ""
      uidValue := ""
      codeValue := ⟨"", ""⟩
      graphicType := ""
      refSopClassUid := ""
      refSopInstanceUid := "" }
    []

/-- A concrete measurement report root holding both groups. -/
def exReport : CItem :=
  mkContainer ⟨"DCM", "126000"⟩
    [mkContainer Codes.ImagingMeasurements [exGroup1410, exGroup1501]]

/-- A concrete measurement group holding a single volume-surface item. -/
def exGroupVolumeSurface : CItem :=
  mkContainer Codes.MeasurementGroup
    [mkItem Codes.VolumeSurface ValueType.SCOORD3D
      (some RelationshipType.CONTAINS)]

/-- The counting loop of `_count_roi_items` computes, for each of the six
reference kinds, the number of child items of that concept name and value
type. -/
theorem countRoiItemsLoop_spec (cs : List CItem) (acc : RoiCounts) :
    countRoiItemsLoop cs acc =
      { imageRegion := acc.imageRegion + cs.countP (isImageRegionItem ·)
        imageRegion3d := acc.imageRegion3d + cs.countP (isImageRegion3dItem ·)
        volumeSurface := acc.volumeSurface + cs.countP (isVolumeSurfaceItem ·)
        referencedSegment :=
          acc.referencedSegment + cs.countP (isReferencedSegmentItem ·)
        referencedSegmentationFrame :=
          acc.referencedSegmentationFrame +
            cs.countP (isReferencedSegmentationFrameItem ·)
        regionInSpace :=
          acc.regionInSpace + cs.countP (isRegionInSpaceItem ·) } := by
  induction cs generalizing acc with
  | nil => simp [countRoiItemsLoop, List.countP_nil]
  | cons i rest ih =>
    simp only [countRoiItemsLoop, List.countP_cons, ih,
      isImageRegionItem, isImageRegion3dItem, isVolumeSurfaceItem,
      isReferencedSegmentItem, isReferencedSegmentationFrameItem,
      isRegionInSpaceItem]
    split_ifs <;> simp_all <;> omega

/-- For a valid measurement-group container, `_count_roi_items` returns the
per-kind counts of the direct children. -/
theorem countRoiItems_spec (g : CItem)
    (hvt : g.data.valueType = ValueType.CONTAINER)
    (hname : g.data.name = Codes.MeasurementGroup) :
    countRoiItems g =
      .ok
        { imageRegion := g.children.countP (isImageRegionItem ·)
          imageRegion3d := g.children.countP (isImageRegion3dItem ·)
          volumeSurface := g.children.countP (isVolumeSurfaceItem ·)
          referencedSegment := g.children.countP (isReferencedSegmentItem ·)
          referencedSegmentationFrame :=
            g.children.countP (isReferencedSegmentationFrameItem ·)
          regionInSpace := g.children.countP (isRegionInSpaceItem ·) } := by
  simp [countRoiItems, hvt, hname, countRoiItemsLoop_spec]

/-- The base TID 1501 constructor succeeds whenever the tracking
identifier does not consist of a single item. -/
theorem measurementsGroupBase_ok (tracking : List CItem)
    (htr : tracking.length ≠ 1) (rwvm : Option CItem) (tp : List CItem)
    (ft mth : Option Code) (alg fs : List CItem) (sess : Option String)
    (meas : List (List CItem)) (qe : List (List CItem))
    (fc : Option Code) :
    ∃ b, measurementsGroupBase tracking rwvm tp ft mth alg fs sess meas qe
        fc = .ok b := by
  unfold measurementsGroupBase
  rw [if_neg htr]
  exact ⟨_, rfl⟩

/-- The measurement-coordinate check of the ROI base constructor passes
when no measurement carries referenced coordinates. -/
theorem measurements_any_coordinates_false (meas : List (List CItem))
    (hmeas : ∀ m ∈ meas, measurementReferencedCoordinates m = []) :
    (meas.any
      (fun m => ¬(measurementReferencedCoordinates m).isEmpty)) = false := by
  rw [List.any_eq_false]
  intro m hm
  simp [hmeas m hm]

/-- C1: for the shared ROI measurement-group base constructor and its
planar and volumetric specializations, supplying none of the reference
arguments errors, supplying two or more errors, and supplying exactly one
raises no exclusivity error — the construction succeeds (given a
well-formed tracking identifier, non-empty region lists and measurements
without referenced coordinates, the conditions the other constructor
checks test). -/
theorem roi_reference_mutual_exclusivity (tracking : List CItem)
    (htr : tracking.length ≠ 1) (rwvm : Option CItem) (tp : List CItem)
    (ft mth : Option Code) (alg fs : List CItem) (sess : Option String)
    (meas : List (List CItem))
    (hmeas : ∀ m ∈ meas, measurementReferencedCoordinates m = [])
    (qe : List (List CItem)) (gp fc : Option Code) :
    (∀ regions seg vs : Option (List CItem),
      (∀ l, regions = some l → l ≠ []) →
      ((regions.isSome → false) → (vs.isSome → false) →
        (seg.isSome → false) →
        roiMeasurementsGroup tracking regions seg vs rwvm tp ft mth alg fs
          sess meas qe gp fc = .error roiNoReferenceMsg) ∧
      (((if regions.isSome then 1 else 0) + (if vs.isSome then 1 else 0) +
          (if seg.isSome then 1 else 0) > 1) →
        roiMeasurementsGroup tracking regions seg vs rwvm tp ft mth alg fs
          sess meas qe gp fc = .error roiMultipleReferenceMsg) ∧
      (((if regions.isSome then 1 else 0) + (if vs.isSome then 1 else 0) +
          (if seg.isSome then 1 else 0) = 1) →
        ∃ g, roiMeasurementsGroup tracking regions seg vs rwvm tp ft mth
          alg fs sess meas qe gp fc = .ok g)) ∧
    (∀ (region : Option CItem) (seg : Option (List CItem)),
      ((region.isSome → false) → (seg.isSome → false) →
        planarRoiMeasurementsGroup tracking region seg rwvm tp ft mth alg
          fs sess meas qe gp fc = .error planarNoReferenceMsg) ∧
      (((if region.isSome then 1 else 0) +
          (if seg.isSome then 1 else 0) > 1) →
        planarRoiMeasurementsGroup tracking region seg rwvm tp ft mth alg
          fs sess meas qe gp fc = .error planarMultipleReferenceMsg) ∧
      (((if region.isSome then 1 else 0) +
          (if seg.isSome then 1 else 0) = 1) →
        ∃ g, planarRoiMeasurementsGroup tracking region seg rwvm tp ft mth
          alg fs sess meas qe gp fc = .ok g)) ∧
    (∀ regions vs seg : Option (List CItem),
      (∀ l, regions = some l → l ≠ []) →
      (∀ l, regions = some l →
        l.any (·.data.valueType == ValueType.SCOORD3D) = false) →
      ((regions.isSome → false) → (vs.isSome → false) →
        (seg.isSome → false) →
        volumetricRoiMeasurementsGroup tracking regions vs seg rwvm tp ft
          mth alg fs sess meas qe gp fc = .error roiNoReferenceMsg) ∧
      (((if regions.isSome then 1 else 0) + (if vs.isSome then 1 else 0) +
          (if seg.isSome then 1 else 0) > 1) →
        volumetricRoiMeasurementsGroup tracking regions vs seg rwvm tp ft
          mth alg fs sess meas qe gp fc =
            .error roiMultipleReferenceMsg) ∧
      (((if regions.isSome then 1 else 0) + (if vs.isSome then 1 else 0) +
          (if seg.isSome then 1 else 0) = 1) →
        ∃ g, volumetricRoiMeasurementsGroup tracking regions vs seg rwvm
          tp ft mth alg fs sess meas qe gp fc = .ok g)) := by
  obtain ⟨b, hb⟩ := measurementsGroupBase_ok tracking htr rwvm tp ft mth
    alg fs sess meas qe fc
  have hany := measurements_any_coordinates_false meas hmeas
  refine ⟨?_, ?_, ?_⟩
  · intro regions seg vs hreg
    rcases regions with _ | regions <;> rcases seg with _ | seg <;>
      rcases vs with _ | vs
    · exact ⟨fun _ _ _ => by
        simp [roiMeasurementsGroup, hb, bind, Except.bind],
        by intro h; simp at h,
        by intro h; simp at h⟩
    · refine ⟨by simp, by intro h; simp at h, fun _ => ?_⟩
      simp [roiMeasurementsGroup, hb, bind, Except.bind, hany, pure,
        Except.pure]
      try rw [measurements_any_coordinates_false meas hmeas]
      try simp
    · refine ⟨by simp, by intro h; simp at h, fun _ => ?_⟩
      simp [roiMeasurementsGroup, hb, bind, Except.bind, hany, pure,
        Except.pure]
      try rw [measurements_any_coordinates_false meas hmeas]
      try simp
    · refine ⟨by simp, ?_, by intro h; simp at h⟩
      intro _
      simp [roiMeasurementsGroup, hb, bind, Except.bind]
    · refine ⟨by simp, by intro h; simp at h, fun _ => ?_⟩
      have hne : regions.length ≠ 0 := by
        have := hreg regions rfl
        simpa [List.length_eq_zero] using this
      simp [roiMeasurementsGroup, hb, bind, Except.bind, hany, hne, pure,
        Except.pure]
      try rw [measurements_any_coordinates_false meas hmeas]
      try simp
    · refine ⟨by simp, ?_, by intro h; simp at h⟩
      intro _
      simp [roiMeasurementsGroup, hb, bind, Except.bind]
    · refine ⟨by simp, ?_, by intro h; simp at h⟩
      intro _
      simp [roiMeasurementsGroup, hb, bind, Except.bind]
    · refine ⟨by simp, ?_, by intro h; simp at h⟩
      intro _
      simp [roiMeasurementsGroup, hb, bind, Except.bind]
  · intro region seg
    rcases region with _ | region <;> rcases seg with _ | seg
    · exact ⟨fun _ _ => by
        simp [planarRoiMeasurementsGroup],
        by intro h; simp at h,
        by intro h; simp at h⟩
    · refine ⟨by simp, by intro h; simp at h, fun _ => ?_⟩
      simp [planarRoiMeasurementsGroup, roiMeasurementsGroup, hb, bind,
        Except.bind, hany, pure, Except.pure]
      try rw [measurements_any_coordinates_false meas hmeas]
      try simp
    · refine ⟨by simp, by intro h; simp at h, fun _ => ?_⟩
      simp [planarRoiMeasurementsGroup, roiMeasurementsGroup, hb, bind,
        Except.bind, hany, pure, Except.pure]
      try rw [measurements_any_coordinates_false meas hmeas]
      try simp
    · refine ⟨by simp, ?_, by intro h; simp at h⟩
      intro _
      simp [planarRoiMeasurementsGroup]
  · intro regions vs seg hreg hreg3d
    rcases regions with _ | regions <;> rcases vs with _ | vs <;>
      rcases seg with _ | seg
    · exact ⟨fun _ _ _ => by
        simp [volumetricRoiMeasurementsGroup, roiMeasurementsGroup, hb,
          bind, Except.bind, pure, Except.pure],
        by intro h; simp at h,
        by intro h; simp at h⟩
    · refine ⟨by simp, by intro h; simp at h, fun _ => ?_⟩
      simp [volumetricRoiMeasurementsGroup, roiMeasurementsGroup, hb,
        bind, Except.bind, hany, pure, Except.pure]
      try rw [measurements_any_coordinates_false meas hmeas]
      try simp
    · refine ⟨by simp, by intro h; simp at h, fun _ => ?_⟩
      simp [volumetricRoiMeasurementsGroup, roiMeasurementsGroup, hb,
        bind, Except.bind, hany, pure, Except.pure]
      try rw [measurements_any_coordinates_false meas hmeas]
      try simp
    · refine ⟨by simp, ?_, by intro h; simp at h⟩
      intro _
      simp [volumetricRoiMeasurementsGroup, roiMeasurementsGroup, hb,
        bind, Except.bind, pure, Except.pure]
    · refine ⟨by simp, by intro h; simp at h, fun _ => ?_⟩
      have hne : regions.length ≠ 0 := by
        have := hreg regions rfl
        simpa [List.length_eq_zero] using this
      simp [volumetricRoiMeasurementsGroup, roiMeasurementsGroup, hb,
        bind, Except.bind, hany, hne, hreg3d regions rfl, pure,
        Except.pure]
      try rw [measurements_any_coordinates_false meas hmeas]
      try simp
    · refine ⟨by simp, ?_, by intro h; simp at h⟩
      intro _
      simp [volumetricRoiMeasurementsGroup, roiMeasurementsGroup, hb,
        bind, Except.bind, hreg3d regions rfl, pure, Except.pure]
    · refine ⟨by simp, ?_, by intro h; simp at h⟩
      intro _
      simp [volumetricRoiMeasurementsGroup, roiMeasurementsGroup, hb,
        bind, Except.bind, hreg3d regions rfl, pure, Except.pure]
    · refine ⟨by simp, ?_, by intro h; simp at h⟩
      intro _
      simp [volumetricRoiMeasurementsGroup, roiMeasurementsGroup, hb,
        bind, Except.bind, hreg3d regions rfl, pure, Except.pure]

/-- Closed witness for C1 at concrete inputs: a planar ROI group with no
reference argument raises the exclusivity error and one with exactly one
reference argument constructs successfully. -/
theorem roi_reference_mutual_exclusivity_witness :
    planarRoiMeasurementsGroup
        (trackingIdentifierItems "1.2.3" (some "lesion-1")) none none none
        [] none none [] [] none [] [] none none =
      .error planarNoReferenceMsg ∧
    ∃ g, planarRoiMeasurementsGroup
        (trackingIdentifierItems "1.2.3" (some "lesion-1"))
        (some exRegion) none none [] none none [] [] none [] [] none none =
      .ok g := by
  have h := roi_reference_mutual_exclusivity
    (trackingIdentifierItems "1.2.3" (some "lesion-1"))
    (by simp [trackingIdentifierItems]) none [] none none [] [] none []
    (by intro m hm; simp at hm) [] none none
  exact ⟨(h.2.1 none none).1 (by simp) (by simp),
    (h.2.1 (some exRegion) none).2.2 (by simp)⟩

/-- C9: the shared measurement-group base constructor (used by
TID 1501 and both ROI specializations) rejects a tracking identifier built
without the human-readable identifier — a single UIDREF item — with a
ValueError, although `TrackingIdentifier.__init__` itself accepts the
omission; a tracking identifier carrying both items is accepted. -/
theorem tracking_identifier_requires_both_items (uid : String)
    (rwvm : Option CItem) (tp : List CItem) (ft mth : Option Code)
    (alg fs : List CItem) (sess : Option String)
    (meas : List (List CItem))
    (hmeas : ∀ m ∈ meas, measurementReferencedCoordinates m = [])
    (qe : List (List CItem)) (gp fc : Option Code) :
    (measurementsGroupBase (trackingIdentifierItems uid none) rwvm tp ft
        mth alg fs sess meas qe fc = .error trackingIdentifierLengthMsg) ∧
    (planarRoiMeasurementsGroup (trackingIdentifierItems uid none)
        (some exRegion) none rwvm tp ft mth alg fs sess meas qe gp fc =
      .error trackingIdentifierLengthMsg) ∧
    (volumetricRoiMeasurementsGroup (trackingIdentifierItems uid none)
        none (some [mkItem Codes.VolumeSurface ValueType.SCOORD3D
          (some RelationshipType.CONTAINS)]) none rwvm tp ft mth alg fs
        sess meas qe gp fc = .error trackingIdentifierLengthMsg) ∧
    (∀ ident : String,
      ∃ g, measurementsGroupBase
        (trackingIdentifierItems uid (some ident)) rwvm tp ft mth alg fs
        sess meas qe fc = .ok g) ∧
    (∀ ident : String,
      ∃ g, planarRoiMeasurementsGroup
        (trackingIdentifierItems uid (some ident)) (some exRegion) none
        rwvm tp ft mth alg fs sess meas qe gp fc = .ok g) := by
  have herr : measurementsGroupBase (trackingIdentifierItems uid none)
      rwvm tp ft mth alg fs sess meas qe fc =
        .error trackingIdentifierLengthMsg := by
    unfold measurementsGroupBase
    rw [if_pos (by simp [trackingIdentifierItems])]
  refine ⟨herr, ?_, ?_, ?_, ?_⟩
  · simp [planarRoiMeasurementsGroup, roiMeasurementsGroup, herr, bind,
      Except.bind]
  · simp [volumetricRoiMeasurementsGroup, roiMeasurementsGroup, herr,
      bind, Except.bind, pure, Except.pure]
  · intro ident
    exact measurementsGroupBase_ok (trackingIdentifierItems uid
      (some ident)) (by simp [trackingIdentifierItems]) rwvm tp ft mth alg
      fs sess meas qe fc
  · intro ident
    have h := roi_reference_mutual_exclusivity
      (trackingIdentifierItems uid (some ident))
      (by simp [trackingIdentifierItems]) rwvm tp ft mth alg fs sess meas
      hmeas qe gp fc
    exact (h.2.1 (some exRegion) none).2.2 (by simp)

/-- Closed witness for C9 at concrete inputs. -/
theorem tracking_identifier_requires_both_items_witness :
    measurementsGroupBase (trackingIdentifierItems "1.2.3" none) none []
        none none [] [] none [] [] none =
      .error trackingIdentifierLengthMsg ∧
    ∃ g, measurementsGroupBase (trackingIdentifierItems "1.2.3"
        (some "lesion-1")) none [] none none [] [] none [] [] none =
      .ok g := by
  have h := tracking_identifier_requires_both_items "1.2.3" none [] none
    none [] [] none [] (by intro m hm; simp at hm) [] none none
  exact ⟨h.1, h.2.2.2.1 "lesion-1"⟩

/-- C8: `TrackingIdentifier(uid="1.2.3", identifier="lesion-1")` yields
exactly two content items — item 0 a TEXT "Tracking Identifier" item with
value "lesion-1" and item 1 a UIDREF "Tracking Unique Identifier" item
with value "1.2.3" — and serializing both items and re-parsing them
reproduces the same sequence. -/
theorem tracking_identifier_scenario :
    (trackingIdentifierItems "1.2.3" (some "lesion-1")).length = 2 ∧
    ((trackingIdentifierItems "1.2.3" (some "lesion-1")).get? 0).map
        (fun i => (i.data.valueType, i.data.name, i.data.textValue)) =
      some (ValueType.TEXT, Codes.TrackingIdentifierCode, "lesion-1") ∧
    ((trackingIdentifierItems "1.2.3" (some "lesion-1")).get? 1).map
        (fun i => (i.data.valueType, i.data.name, i.data.uidValue)) =
      some (ValueType.UIDREF, Codes.TrackingUniqueIdentifier, "1.2.3") ∧
    ((trackingIdentifierItems "1.2.3" (some "lesion-1")).map
        leafToDataset).mapM leafFromDataset =
      .ok (trackingIdentifierItems "1.2.3" (some "lesion-1")) := by
  exact ⟨rfl, rfl, rfl, rfl⟩

/-- Slicing with a non-negative stop is take-then-drop. -/
theorem pySlice_ofNat (l : List CItem) (a n : Nat) :
    pySlice l a (n : Int) = (l.take n).drop a := by
  have h1 : ¬((n : Int) < 0) := by omega
  have h2 : ((n : Int)).toNat = n := by omega
  simp [pySlice, h1, h2]

/-- Slicing with the sentinel stop -1 cuts the list one short of its end:
the final element is excluded. -/
theorem pySlice_neg_one (l : List CItem) (a : Nat) :
    pySlice l a (-1) = (l.take (l.length - 1)).drop a := by
  have h : (((l.length : Int)) + (-1)).toNat = l.length - 1 := by omega
  simp [pySlice, h]

/-- The context-extraction loop without a filter succeeds and emits one
(marker, slice) pair per processed marker when every processed marker
carries an allowed value. -/
theorem contextSlices_loop_ok (root : List CItem)
    (ms : List (Nat × CItem)) (allowedValues : List Code)
    (qs : List (Nat × (Nat × CItem)))
    (hq : ∀ q ∈ qs, allowedValues.contains q.2.2.data.codeValue)
    (acc : List (CItem × List CItem)) :
    qs.foldlM (contextSliceBody root ms allowedValues none) acc =
      .ok (acc ++ qs.map
        (fun q => (q.2.2, pySlice root q.2.1 (nextMarkerIdx ms q.1)))) := by
  induction qs generalizing acc with
  | nil => simp [List.foldlM_nil, pure, Except.pure]
  | cons q qs ih =>
    have hhead := hq q (by simp)
    have htail : ∀ p ∈ qs, allowedValues.contains p.2.2.data.codeValue :=
      fun p hp => hq p (by simp [hp])
    rw [List.foldlM_cons]
    simp only [contextSliceBody, hhead, if_true, pure, Except.pure, bind,
      Except.bind]
    rw [ih htail]
    simp

/-- C6 (amended): `get_observer_contexts` and `get_subject_contexts` find
each type-marker position in the flat root content sequence and slice
between consecutive stored marker indices, but the slice for the last
marker stops one element short of the end of the root content sequence —
the Python sentinel stop -1 excludes the final item. -/
theorem context_slices_between_markers (root : List CItem)
    (hobs : ∀ p ∈ contextMarkers Codes.ObserverType root,
      [Codes.Device, Codes.Person].contains p.2.data.codeValue)
    (hsub : ∀ p ∈ contextMarkers Codes.SubjectClass root,
      [Codes.Specimen, Codes.Fetus, Codes.Device].contains
        p.2.data.codeValue) :
    getObserverContextSlices root none =
      .ok ((contextMarkers Codes.ObserverType root).enum.map
        (fun q =>
          (q.2.2,
            match (contextMarkers Codes.ObserverType root)[q.1 + 1]? with
            | some nxt => (root.take nxt.1).drop q.2.1
            | none => (root.take (root.length - 1)).drop q.2.1))) ∧
    getSubjectContextSlices root none =
      .ok ((contextMarkers Codes.SubjectClass root).enum.map
        (fun q =>
          (q.2.2,
            match (contextMarkers Codes.SubjectClass root)[q.1 + 1]? with
            | some nxt => (root.take nxt.1).drop q.2.1
            | none => (root.take (root.length - 1)).drop q.2.1))) := by
  constructor
  · rw [getObserverContextSlices, contextSlices, contextSlices_loop_ok
      root (contextMarkers Codes.ObserverType root)
      [Codes.Device, Codes.Person] _ ?_ []]
    · congr 1
      apply List.map_congr_left
      intro q hq
      cases hnx : (contextMarkers Codes.ObserverType root)[q.1 + 1]?
        with
      | none => simp [nextMarkerIdx, hnx, pySlice_neg_one]
      | some nxt => simp [nextMarkerIdx, hnx, pySlice_ofNat]
    · intro q hq
      have hmem : q.2 ∈ contextMarkers Codes.ObserverType root :=
        List.getElem?_mem (List.mem_enum_iff_getElem?.1 hq)
      exact hobs q.2 hmem
  · rw [getSubjectContextSlices, contextSlices, contextSlices_loop_ok
      root (contextMarkers Codes.SubjectClass root)
      [Codes.Specimen, Codes.Fetus, Codes.Device] _ ?_ []]
    · congr 1
      apply List.map_congr_left
      intro q hq
      cases hnx : (contextMarkers Codes.SubjectClass root)[q.1 + 1]?
        with
      | none => simp [nextMarkerIdx, hnx, pySlice_neg_one]
      | some nxt => simp [nextMarkerIdx, hnx, pySlice_ofNat]
    · intro q hq
      have hmem : q.2 ∈ contextMarkers Codes.SubjectClass root :=
        List.getElem?_mem (List.mem_enum_iff_getElem?.1 hq)
      exact hsub q.2 hmem

/-- C6 counterexample: with one marker followed by two items, the slice
for the (last) marker is only the single next item — the final item of the
root content sequence is not included, contradicting the claim that the
last slice extends to the end of the root content sequence. -/
theorem context_slices_last_excludes_final_item :
    getObserverContextSlices exObsRoot none =
      .ok [(exObsMarker, [exObsAttr])] ∧
    exObsRoot.drop 1 = [exObsAttr, exObsLast] ∧
    getObserverContextSlices exObsRoot none ≠
      .ok [(exObsMarker, exObsRoot.drop 1)] := by
  refine ⟨rfl, rfl, ?_⟩
  intro h
  rw [show getObserverContextSlices exObsRoot none =
    .ok [(exObsMarker, [exObsAttr])] from rfl] at h
  simp [exObsRoot] at h

/-- Closed witness for the amended C6 theorem at the concrete root
sequence. -/
theorem context_slices_between_markers_witness :
    getObserverContextSlices exObsRoot none =
      .ok ((contextMarkers Codes.ObserverType exObsRoot).enum.map
        (fun q =>
          (q.2.2,
            match (contextMarkers Codes.ObserverType
                exObsRoot)[q.1 + 1]? with
            | some nxt => (exObsRoot.take nxt.1).drop q.2.1
            | none =>
              (exObsRoot.take (exObsRoot.length - 1)).drop q.2.1))) := by
  exact (context_slices_between_markers exObsRoot (by decide)
    (by decide)).1

/-- C7: the singular-field accessors are total functions — absence of the
optional sub-item yields `None` (empty list for the list-valued
accessors), never an error — and when matches exist they return the value
of the first match in document order, also when several matches exist. -/
theorem singular_accessors_first_match_or_none (group numItem : CItem) :
    (groupMethod group = none ↔
      findContentItems group (some Codes.MeasurementMethod)
        (some ValueType.CODE) none = []) ∧
    (∀ m rest, findContentItems group (some Codes.MeasurementMethod)
        (some ValueType.CODE) none = m :: rest →
      groupMethod group = some m.data.codeValue) ∧
    (groupTrackingIdentifier group = none ↔
      findContentItems group (some Codes.TrackingIdentifierCode)
        (some ValueType.TEXT) none = []) ∧
    (∀ m rest, findContentItems group (some Codes.TrackingIdentifierCode)
        (some ValueType.TEXT) none = m :: rest →
      groupTrackingIdentifier group = some m.data.textValue) ∧
    (groupTrackingUid group = none ↔
      findContentItems group (some Codes.TrackingUniqueIdentifier)
        (some ValueType.UIDREF) none = []) ∧
    (∀ m rest, findContentItems group (some Codes.TrackingUniqueIdentifier)
        (some ValueType.UIDREF) none = m :: rest →
      groupTrackingUid group = some m.data.uidValue) ∧
    (groupFindingCategory group = none ↔
      findContentItems group (some Codes.FindingCategory)
        (some ValueType.CODE) none = []) ∧
    (∀ m rest, findContentItems group (some Codes.FindingCategory)
        (some ValueType.CODE) none = m :: rest →
      groupFindingCategory group = some m.data.codeValue) ∧
    (measurementMethod numItem = none ↔
      findContentItems numItem (some Codes.MeasurementMethod)
        (some ValueType.CODE) none = []) ∧
    (∀ m rest, findContentItems numItem (some Codes.MeasurementMethod)
        (some ValueType.CODE) none = m :: rest →
      measurementMethod numItem = some m.data.codeValue) ∧
    (measurementDerivation numItem = none ↔
      findContentItems numItem (some Codes.Derivation)
        (some ValueType.CODE) none = []) ∧
    (∀ m rest, findContentItems numItem (some Codes.Derivation)
        (some ValueType.CODE) none = m :: rest →
      measurementDerivation numItem = some m.data.codeValue) ∧
    (measurementReferencedImages numItem = [] ↔
      findContentItems numItem (some Codes.SourceOfMeasurement)
        (some ValueType.IMAGE) none = []) ∧
    (groupFindingSites group = [] ↔
      findContentItems group (some Codes.FindingSite)
        (some ValueType.CODE) none = []) := by
  refine ⟨?_, ?_, ?_, ?_, ?_, ?_, ?_, ?_, ?_, ?_, ?_, ?_, ?_, ?_⟩
  · cases h : findContentItems group (some Codes.MeasurementMethod)
      (some ValueType.CODE) none <;> simp [groupMethod, h]
  · intro m rest h
    simp [groupMethod, h]
  · cases h : findContentItems group (some Codes.TrackingIdentifierCode)
      (some ValueType.TEXT) none <;> simp [groupTrackingIdentifier, h]
  · intro m rest h
    simp [groupTrackingIdentifier, h]
  · cases h : findContentItems group (some Codes.TrackingUniqueIdentifier)
      (some ValueType.UIDREF) none <;> simp [groupTrackingUid, h]
  · intro m rest h
    simp [groupTrackingUid, h]
  · cases h : findContentItems group (some Codes.FindingCategory)
      (some ValueType.CODE) none <;> simp [groupFindingCategory, h]
  · intro m rest h
    simp [groupFindingCategory, h]
  · cases h : findContentItems numItem (some Codes.MeasurementMethod)
      (some ValueType.CODE) none <;> simp [measurementMethod, h]
  · intro m rest h
    simp [measurementMethod, h]
  · cases h : findContentItems numItem (some Codes.Derivation)
      (some ValueType.CODE) none <;> simp [measurementDerivation, h]
  · intro m rest h
    simp [measurementDerivation, h]
  · simp [measurementReferencedImages]
  · simp [groupFindingSites]

/-- Closed witness for C7: on a group with two method items the accessor
returns the first value, and on a childless NUM item every accessor
returns `None` or the empty list. -/
theorem singular_accessors_first_match_or_none_witness :
    groupMethod exGroupTwoMethods = some ⟨"SCT", "first"⟩ ∧
    measurementMethod (mkItem Codes.MeasurementMethod ValueType.NUM none)
      = none := by
  have h := singular_accessors_first_match_or_none exGroupTwoMethods
    (mkItem Codes.MeasurementMethod ValueType.NUM none)
  refine ⟨h.2.1 (mkCodeItem Codes.MeasurementMethod ⟨"SCT", "first"⟩
      (some RelationshipType.CONTAINS))
    [mkCodeItem Codes.MeasurementMethod ⟨"SCT", "second"⟩
      (some RelationshipType.CONTAINS)] rfl,
    (h.2.2.2.2.2.2.2.2.1).2 rfl⟩

/-- C10: `check_person_name` raises TypeError exactly on arguments of
other types, raises ValueError if and only if the accepted string is
non-empty and caret-free, and accepts the empty string and every string
containing a caret; `PersonName` arguments behave like their string. -/
theorem check_person_name_spec :
    check_person_name .otherType = .error .typeError ∧
    (∀ s : String,
      (check_person_name (.str s) = .error .valueError ↔
        (s.contains '^' = false ∧ s ≠ ""))) ∧
    (∀ s : String,
      (check_person_name (.str s) = .ok () ↔
        (s = "" ∨ s.contains '^' = true))) ∧
    (∀ s : String,
      check_person_name (.personName s) = check_person_name (.str s)) := by
  refine ⟨rfl, ?_, ?_, fun s => rfl⟩
  · intro s
    by_cases hc : s.contains '^' = true <;> by_cases he : s = "" <;>
      simp [check_person_name, hc, he]
  · intro s
    by_cases hc : s.contains '^' = true <;> by_cases he : s = "" <;>
      simp [check_person_name, hc, he]

/-- C4: for every measurement-group container item,
`_contains_volumetric_rois` returns true if and only if (the count of 2D
image-region child items exceeds 1, or at least one referenced-segment,
volume-surface, or region-in-space child item is present) while the counts
of referenced-segmentation-frame and 3D image-region child items are both
zero, the counts being taken over the direct children by concept name and
value type. -/
theorem contains_volumetric_rois_characterization (g : CItem)
    (hvt : g.data.valueType = ValueType.CONTAINER)
    (hname : g.data.name = Codes.MeasurementGroup) :
    containsVolumetricRois g =
      .ok
        ((decide (g.children.countP (isImageRegionItem ·) > 1) ||
          decide (g.children.countP (isReferencedSegmentItem ·) > 0) ||
          decide (g.children.countP (isVolumeSurfaceItem ·) > 0) ||
          decide (g.children.countP (isRegionInSpaceItem ·) > 0)) &&
         (g.children.countP (isReferencedSegmentationFrameItem ·) == 0 &&
          g.children.countP (isImageRegion3dItem ·) == 0)) := by
  simp only [containsVolumetricRois, countRoiItems_spec g hvt hname, bind,
    Except.bind]
  set c :=
    (decide (g.children.countP (isImageRegionItem ·) > 1) ||
      decide (g.children.countP (isReferencedSegmentItem ·) > 0) ||
      decide (g.children.countP (isVolumeSurfaceItem ·) > 0) ||
      decide (g.children.countP (isRegionInSpaceItem ·) > 0)) &&
     (g.children.countP (isReferencedSegmentationFrameItem ·) == 0 &&
      g.children.countP (isImageRegion3dItem ·) == 0) with hc
  cases hcv : c <;> simp_all <;> rfl

/-- C3: a measurement-group container with exactly one 2D image-region
child item (name "Image Region", value type SCOORD) and no other ROI
reference child items is classified as planar and not volumetric by the
counting heuristics, regardless of what other (non-reference) content items
the group contains. -/
theorem single_image_region_classified_planar (g : CItem)
    (hvt : g.data.valueType = ValueType.CONTAINER)
    (hname : g.data.name = Codes.MeasurementGroup)
    (h1 : g.children.countP (isImageRegionItem ·) = 1)
    (h2 : g.children.countP (isImageRegion3dItem ·) = 0)
    (h3 : g.children.countP (isVolumeSurfaceItem ·) = 0)
    (h4 : g.children.countP (isReferencedSegmentItem ·) = 0)
    (h5 : g.children.countP (isReferencedSegmentationFrameItem ·) = 0)
    (h6 : g.children.countP (isRegionInSpaceItem ·) = 0) :
    containsPlanarRois g = .ok true ∧
      containsVolumetricRois g = .ok false := by
  constructor
  · simp only [containsPlanarRois, countRoiItems_spec g hvt hname, bind,
      Except.bind, h1, h2, h3, h4, h5, h6]
    rfl
  · simp only [containsVolumetricRois, countRoiItems_spec g hvt hname, bind,
      Except.bind, h1, h2, h3, h4, h5, h6]
    rfl

/-- Closed witness for C3: a concrete group with one SCOORD image region
plus an unrelated finding item is planar and not volumetric. -/
theorem single_image_region_classified_planar_witness :
    containsPlanarRois
        (CItem.mk
          { name := Codes.MeasurementGroup
            valueType := ValueType.CONTAINER
            relationship := some RelationshipType.CONTAINS
            templateId := none
            textValue := ""
            uidValue := ""
            codeValue := ⟨"", ""⟩
            graphicType := ""
            refSopClassUid := ""
            refSopInstanceUid := "" }
          [mkItem Codes.ImageRegion ValueType.SCOORD
            (some RelationshipType.CONTAINS),
           mkItem Codes.Finding ValueType.CODE
            (some RelationshipType.CONTAINS)]) = .ok true ∧
      containsVolumetricRois
        (CItem.mk
          { name := Codes.MeasurementGroup
            valueType := ValueType.CONTAINER
            relationship := some RelationshipType.CONTAINS
            templateId := none
            textValue := ""
            uidValue := ""
            codeValue := ⟨"", ""⟩
            graphicType := ""
            refSopClassUid := ""
            refSopInstanceUid := "" }
          [mkItem Codes.ImageRegion ValueType.SCOORD
            (some RelationshipType.CONTAINS),
           mkItem Codes.Finding ValueType.CODE
            (some RelationshipType.CONTAINS)]) = .ok false := by
  exact single_image_region_classified_planar _ rfl rfl
    (by decide) (by decide) (by decide) (by decide) (by decide) (by decide)

/-- A child that is not an ROI reference match is skipped by the scanning
loop of `_get_roi_reference_items`. -/
theorem getRoiReferenceItemsLoop_skip (allowed : List Code) (c : CItem)
    (cs : List CItem) (rt : Option Code) (acc : List CItem)
    (hm : isRoiReferenceMatch allowed c = false) :
    getRoiReferenceItemsLoop allowed (c :: cs) rt acc =
      getRoiReferenceItemsLoop allowed cs rt acc := by
  simp only [isRoiReferenceMatch, decide_eq_false_iff_not] at hm
  simp only [getRoiReferenceItemsLoop]
  by_cases h1 : c.data.relationship = some RelationshipType.CONTAINS
  · by_cases h2 : c.data.name ∈ allowed
    · have h3 : c.data.valueType ∉ refTypeValueTypes c.data.name := by
        tauto
      simp [h1, h2, h3]
    · simp [h1, h2]
  · simp [h1]

/-- A matching child processed by the loop while no reference type has yet
been selected selects that child's name and collects the child. -/
theorem getRoiReferenceItemsLoop_first (allowed : List Code) (c : CItem)
    (cs : List CItem) (acc : List CItem)
    (hm : isRoiReferenceMatch allowed c = true) :
    getRoiReferenceItemsLoop allowed (c :: cs) none acc =
      getRoiReferenceItemsLoop allowed cs (some c.data.name) (acc ++ [c]) := by
  simp only [isRoiReferenceMatch, decide_eq_true_eq] at hm
  obtain ⟨h1, h2, h3⟩ := hm
  simp only [getRoiReferenceItemsLoop]
  simp [h1, h2, h3]

/-- A matching child processed by the loop after a reference type has been
selected: a different name errors, a repeated singular name errors, and a
repeated Image Region / Volume Surface name is collected. -/
theorem getRoiReferenceItemsLoop_next (allowed : List Code) (c : CItem)
    (cs : List CItem) (r : Code) (acc : List CItem)
    (hm : isRoiReferenceMatch allowed c = true) :
    getRoiReferenceItemsLoop allowed (c :: cs) (some r) acc =
      if c.data.name ≠ r then .error differentRefTypesMsg
      else if r ≠ Codes.ImageRegion ∧ r ≠ Codes.VolumeSurface then
        .error multipleRefItemsMsg
      else getRoiReferenceItemsLoop allowed cs (some r) (acc ++ [c]) := by
  simp only [isRoiReferenceMatch, decide_eq_true_eq] at hm
  obtain ⟨h1, h2, h3⟩ := hm
  simp only [getRoiReferenceItemsLoop]
  by_cases hn : c.data.name = r
  · rw [hn] at h2 h3
    by_cases hb : r ≠ Codes.ImageRegion ∧ r ≠ Codes.VolumeSurface
    · simp [h1, h2, h3, hn, hb]
    · simp [h1, h2, h3, hn, hb]
  · simp [h1, h2, h3, hn]

/-- Loop behavior once a multiplicity-admitting reference type (Image
Region or Volume Surface) has been selected: succeeds collecting every
further matching item exactly when they all carry the selected name. -/
theorem getRoiReferenceItemsLoop_sharedType (allowed : List Code)
    (r : Code) (hr : r = Codes.ImageRegion ∨ r = Codes.VolumeSurface)
    (cs : List CItem) (acc : List CItem) :
    getRoiReferenceItemsLoop allowed cs (some r) acc =
      if (cs.filter (isRoiReferenceMatch allowed ·)).all
          (·.data.name == r) then
        .ok (some r, acc ++ cs.filter (isRoiReferenceMatch allowed ·))
      else .error differentRefTypesMsg := by
  induction cs generalizing acc with
  | nil => simp [getRoiReferenceItemsLoop]
  | cons c cs ih =>
    cases hm : isRoiReferenceMatch allowed c with
    | false =>
      have hf : (c :: cs).filter (isRoiReferenceMatch allowed ·) =
          cs.filter (isRoiReferenceMatch allowed ·) := by
        simp [List.filter_cons, hm]
      rw [getRoiReferenceItemsLoop_skip allowed c cs (some r) acc hm, ih, hf]
    | true =>
      have hf : (c :: cs).filter (isRoiReferenceMatch allowed ·) =
          c :: cs.filter (isRoiReferenceMatch allowed ·) := by
        simp [List.filter_cons, hm]
      rw [getRoiReferenceItemsLoop_next allowed c cs r acc hm, hf]
      by_cases hn : c.data.name = r
      · have hblock : ¬(r ≠ Codes.ImageRegion ∧ r ≠ Codes.VolumeSurface) := by
          rcases hr with h | h <;> simp [h]
        rw [if_neg (not_not_intro hn), if_neg hblock, ih]
        simp [hn, List.append_assoc]
      · rw [if_pos hn]
        have hc : (c.data.name == r) = false := by simp [hn]
        simp [List.all_cons, hc]

/-- Loop behavior once a singular reference type has been selected: any
further matching item is an error — a different name yields the
different-types error and a repeat of the same name yields the
multiplicity error. -/
theorem getRoiReferenceItemsLoop_singularType (allowed : List Code)
    (r : Code) (hr1 : r ≠ Codes.ImageRegion) (hr2 : r ≠ Codes.VolumeSurface)
    (cs : List CItem) (acc : List CItem) :
    getRoiReferenceItemsLoop allowed cs (some r) acc =
      match cs.filter (isRoiReferenceMatch allowed ·) with
      | [] => .ok (some r, acc)
      | e :: _ =>
        if e.data.name == r then .error multipleRefItemsMsg
        else .error differentRefTypesMsg := by
  induction cs generalizing acc with
  | nil => simp [getRoiReferenceItemsLoop]
  | cons c cs ih =>
    cases hm : isRoiReferenceMatch allowed c with
    | false =>
      have hf : (c :: cs).filter (isRoiReferenceMatch allowed ·) =
          cs.filter (isRoiReferenceMatch allowed ·) := by
        simp [List.filter_cons, hm]
      rw [getRoiReferenceItemsLoop_skip allowed c cs (some r) acc hm, ih, hf]
    | true =>
      have hf : (c :: cs).filter (isRoiReferenceMatch allowed ·) =
          c :: cs.filter (isRoiReferenceMatch allowed ·) := by
        simp [List.filter_cons, hm]
      rw [getRoiReferenceItemsLoop_next allowed c cs r acc hm, hf]
      by_cases hn : c.data.name = r
      · rw [if_neg (not_not_intro hn), if_pos ⟨hr1, hr2⟩]
        simp [hn]
      · rw [if_pos hn]
        have hc : (c.data.name == r) = false := by simp [hn]
        simp [hc]

/-- Loop behavior from the initial state (no reference type selected, empty
accumulator), characterized by the filtered list of matching children. -/
theorem getRoiReferenceItemsLoop_none (allowed : List Code)
    (cs : List CItem) :
    getRoiReferenceItemsLoop allowed cs none [] =
      match cs.filter (isRoiReferenceMatch allowed ·) with
      | [] => .ok (none, [])
      | m :: rest =>
        if m.data.name = Codes.ImageRegion ∨
            m.data.name = Codes.VolumeSurface then
          if rest.all (·.data.name == m.data.name) then
            .ok (some m.data.name, m :: rest)
          else .error differentRefTypesMsg
        else
          match rest with
          | [] => .ok (some m.data.name, [m])
          | e :: _ =>
            if e.data.name == m.data.name then .error multipleRefItemsMsg
            else .error differentRefTypesMsg := by
  induction cs with
  | nil => simp [getRoiReferenceItemsLoop]
  | cons c cs ih =>
    cases hm : isRoiReferenceMatch allowed c with
    | false =>
      have hf : (c :: cs).filter (isRoiReferenceMatch allowed ·) =
          cs.filter (isRoiReferenceMatch allowed ·) := by
        simp [List.filter_cons, hm]
      rw [getRoiReferenceItemsLoop_skip allowed c cs none [] hm, ih, hf]
    | true =>
      have hf : (c :: cs).filter (isRoiReferenceMatch allowed ·) =
          c :: cs.filter (isRoiReferenceMatch allowed ·) := by
        simp [List.filter_cons, hm]
      rw [getRoiReferenceItemsLoop_first allowed c cs [] hm, hf]
      simp only [List.nil_append]
      by_cases hIRVS : c.data.name = Codes.ImageRegion ∨
          c.data.name = Codes.VolumeSurface
      · rw [getRoiReferenceItemsLoop_sharedType allowed c.data.name hIRVS
          cs [c]]
        simp [hIRVS]
      · push_neg at hIRVS
        rw [getRoiReferenceItemsLoop_singularType allowed c.data.name
          hIRVS.1 hIRVS.2 cs [c]]
        have hne : ¬(c.data.name = Codes.ImageRegion ∨
            c.data.name = Codes.VolumeSurface) := by
          simp [hIRVS.1, hIRVS.2]
        simp only [hne, if_false]

/-- C5: `_get_roi_reference_items` characterized by the list of matching
direct children (relationship CONTAINS, allowed concept name, expected
value type): no match errors; all matches sharing one concept name are
returned together when the name is Image Region or Volume Surface, and a
singular name is returned exactly when it matches once; a second item of a
singular name or an item of a different name is an error. -/
theorem roi_reference_items_extraction_spec (g : CItem)
    (allowed : List Code) :
    getRoiReferenceItems g allowed =
      match g.children.filter (isRoiReferenceMatch allowed ·) with
      | [] => .error noRoiReferenceMsg
      | m :: rest =>
        if m.data.name = Codes.ImageRegion ∨
            m.data.name = Codes.VolumeSurface then
          if rest.all (·.data.name == m.data.name) then
            .ok (m.data.name, m :: rest)
          else .error differentRefTypesMsg
        else
          match rest with
          | [] => .ok (m.data.name, [m])
          | e :: _ =>
            if e.data.name == m.data.name then .error multipleRefItemsMsg
            else .error differentRefTypesMsg := by
  cases hfc : g.children.filter (isRoiReferenceMatch allowed ·) with
  | nil =>
    simp [getRoiReferenceItems, getRoiReferenceItemsLoop_none, hfc]
  | cons m rest =>
    by_cases hIRVS : m.data.name = Codes.ImageRegion ∨
        m.data.name = Codes.VolumeSurface
    · by_cases hall : rest.all (·.data.name == m.data.name) = true
      · simp [getRoiReferenceItems, getRoiReferenceItemsLoop_none, hfc,
          hIRVS, hall]
      · simp [getRoiReferenceItems, getRoiReferenceItemsLoop_none, hfc,
          hIRVS, hall]
    · cases rest with
      | nil =>
        simp [getRoiReferenceItems, getRoiReferenceItemsLoop_none, hfc,
          hIRVS]
      | cons e tail =>
        by_cases he : (e.data.name == m.data.name) = true
        · simp [getRoiReferenceItems, getRoiReferenceItemsLoop_none, hfc,
            hIRVS, he]
        · simp [getRoiReferenceItems, getRoiReferenceItemsLoop_none, hfc,
            hIRVS, he]

/-- A successful run of the candidate-scan loop returns exactly the
groups whose classification and filter evaluation both succeeded with
true, appended to the accumulator in order. -/
theorem filterGroupsM_ok (classify pass : CItem → Except String Bool) :
    ∀ (gs : List CItem) (acc l : List CItem),
    filterGroupsM classify pass gs acc = .ok l →
    l = acc ++ gs.filter
      (fun g => isOkTrue (classify g) && isOkTrue (pass g)) := by
  intro gs
  induction gs with
  | nil =>
    intro acc l h
    simp only [filterGroupsM] at h
    simp only [Except.ok.injEq] at h
    simp [h]
  | cons g gs ih =>
    intro acc l h
    simp only [filterGroupsM] at h
    cases hc : classify g with
    | error e => rw [hc] at h; simp [bind, Except.bind] at h
    | ok c =>
      rw [hc] at h
      simp only [bind, Except.bind] at h
      cases c with
      | false =>
        simp only [Bool.false_eq_true, if_false] at h
        rw [ih acc l h, List.filter_cons]
        simp [hc, isOkTrue]
      | true =>
        simp only [if_true] at h
        cases hp : pass g with
        | error e => rw [hp] at h; simp at h
        | ok b =>
          rw [hp] at h
          simp only [] at h
          cases b with
          | false =>
            simp only [Bool.false_eq_true, if_false] at h
            rw [ih acc l h, List.filter_cons]
            simp [hc, hp, isOkTrue]
          | true =>
            simp only [if_true] at h
            rw [ih (acc ++ [g]) l h, List.filter_cons]
            simp [hc, hp, isOkTrue, List.append_assoc]

/-- When every group's classification succeeds and the filter evaluation
always passes, the candidate-scan loop returns all classified groups. -/
theorem filterGroupsM_total_ok (classify pass : CItem → Except String Bool) :
    ∀ (gs : List CItem), (∀ g ∈ gs, ∃ c, classify g = .ok c) →
    (∀ g ∈ gs, pass g = .ok true) → ∀ acc,
    filterGroupsM classify pass gs acc =
      .ok (acc ++ gs.filter (fun g => isOkTrue (classify g))) := by
  intro gs
  induction gs with
  | nil => intro _ _ acc; simp [filterGroupsM]
  | cons g gs ih =>
    intro hc hp acc
    obtain ⟨c, hcg⟩ := hc g (by simp)
    have hih := ih (fun x hx => hc x (by simp [hx]))
      (fun x hx => hp x (by simp [hx]))
    simp only [filterGroupsM]
    cases c with
    | false =>
      rw [List.filter_cons]
      simp [hcg, bind, Except.bind, hih, isOkTrue]
    | true =>
      rw [List.filter_cons]
      simp [hcg, hp g (by simp), bind, Except.bind, hih, isOkTrue,
        List.append_assoc]

/-- Groups located by `_find_measurement_groups` carry the "Measurement
Group" concept name and the CONTAINER value type (the search filters on
both). -/
theorem mem_findMeasurementGroups (root g : CItem)
    (hg : g ∈ findMeasurementGroups root) :
    g.data.name = Codes.MeasurementGroup ∧
      g.data.valueType = ValueType.CONTAINER := by
  unfold findMeasurementGroups at hg
  rcases hfind : findContentItems root (some Codes.ImagingMeasurements)
      (some ValueType.CONTAINER) none with _ | ⟨im, rest⟩
  · rw [hfind] at hg
    simp at hg
  · rw [hfind] at hg
    unfold findContentItems at hg
    rw [List.mem_filter] at hg
    have hp := hg.2
    simp only [Bool.and_eq_true, beq_iff_eq] at hp
    exact ⟨hp.1.1, hp.1.2⟩

/-- An if-then-else of two successful computations succeeds. -/
theorem ite_ok_exists {C : Prop} [Decidable C]
    (x y : Except String Bool) (hx : ∃ b, x = .ok b)
    (hy : ∃ b, y = .ok b) : ∃ b, (if C then x else y) = .ok b := by
  by_cases h : C
  · simpa [h] using hx
  · simpa [h] using hy

/-- On a valid measurement-group container, `_contains_planar_rois`
succeeds. -/
theorem containsPlanarRois_isOk (g : CItem)
    (hvt : g.data.valueType = ValueType.CONTAINER)
    (hname : g.data.name = Codes.MeasurementGroup) :
    ∃ b, containsPlanarRois g = .ok b := by
  unfold containsPlanarRois
  rw [countRoiItems_spec g hvt hname]
  simp only [bind, Except.bind]
  exact ite_ok_exists _ _ ⟨true, rfl⟩ ⟨false, rfl⟩

/-- On a valid measurement-group container, `_contains_volumetric_rois`
succeeds. -/
theorem containsVolumetricRois_isOk (g : CItem)
    (hvt : g.data.valueType = ValueType.CONTAINER)
    (hname : g.data.name = Codes.MeasurementGroup) :
    ∃ b, containsVolumetricRois g = .ok b := by
  unfold containsVolumetricRois
  rw [countRoiItems_spec g hvt hname]
  simp only [bind, Except.bind]
  exact ite_ok_exists _ _ ⟨true, rfl⟩ ⟨false, rfl⟩

/-- On a valid measurement-group container, the planar candidate test
succeeds. -/
theorem planarClassify_isOk (g : CItem)
    (hvt : g.data.valueType = ValueType.CONTAINER)
    (hname : g.data.name = Codes.MeasurementGroup) :
    ∃ c, planarClassify g = .ok c := by
  unfold planarClassify
  cases g.data.templateId with
  | some t => exact ⟨_, rfl⟩
  | none => exact containsPlanarRois_isOk g hvt hname

/-- On a valid measurement-group container, the plain-group candidate
test succeeds. -/
theorem imageClassify_isOk (g : CItem)
    (hvt : g.data.valueType = ValueType.CONTAINER)
    (hname : g.data.name = Codes.MeasurementGroup) :
    ∃ c, imageClassify g = .ok c := by
  unfold imageClassify
  cases g.data.templateId with
  | some t => exact ⟨_, rfl⟩
  | none =>
    obtain ⟨p, hp⟩ := containsPlanarRois_isOk g hvt hname
    obtain ⟨v, hv⟩ := containsVolumetricRois_isOk g hvt hname
    refine ⟨decide ¬((p || v) = true), ?_⟩
    rw [hp]
    simp only [bind, Except.bind]
    rw [hv]
    simp only [Except.bind, pure, Except.pure]

/-- The fallible planar candidate test agrees with its total boolean
form. -/
theorem isOkTrue_planarClassify (g : CItem) :
    isOkTrue (planarClassify g) = isPlanarCandidate g := by
  unfold planarClassify isPlanarCandidate
  cases g.data.templateId with
  | some t => by_cases h : t = "1410" <;> simp [isOkTrue, pure,
      Except.pure, h]
  | none =>
    cases hc : containsPlanarRois g with
    | error e => simp [isOkTrue]
    | ok b => cases b <;> simp [isOkTrue]

/-- The fallible plain-group candidate test agrees with its total boolean
form. -/
theorem isOkTrue_imageClassify (g : CItem) :
    isOkTrue (imageClassify g) = isImageCandidate g := by
  unfold imageClassify isImageCandidate
  cases g.data.templateId with
  | some t => by_cases h : t = "1501" <;> simp [isOkTrue, pure,
      Except.pure, h]
  | none =>
    cases hp : containsPlanarRois g with
    | error e => simp [isOkTrue, bind, Except.bind]
    | ok p =>
      cases hv : containsVolumetricRois g with
      | error e => simp [isOkTrue, bind, Except.bind]
      | ok v =>
        simp only [bind, Except.bind]
        cases p <;> cases v <;> simp [isOkTrue, pure, Except.pure]

/-- The matches-list entry contributed by one optional filter is all-true
exactly when the filter, if supplied, matches. -/
theorem optList_all {α : Type} (o : Option α) (f : α → Bool) :
    ((o.elim [] (fun v => [f v])).all id = true) ↔
      ∀ v, o = some v → f v = true := by
  cases o <;> simp

/-- The matches-list entry contributed by a condition-guarded filter is
all-true exactly when the condition implies the filter matches. -/
theorem condList_all (c b : Bool) :
    ((if c = true then [b] else []).all id = true) ↔
      (c = true → b = true) := by
  cases c <;> simp

/-- With no filters the planar filter evaluation accepts every group. -/
theorem planarGroupMatches_none (g : CItem) :
    planarGroupMatches none none none none none none none g =
      .ok true := rfl

/-- With no filters the plain-group filter evaluation accepts every
group. -/
theorem imageGroupMatches_none (g : CItem) :
    imageGroupMatches none none none none none g = true := rfl

/-- The matches-list entry of one optional filter contains no false entry
exactly when the filter, if supplied, matches. -/
theorem optList_not_mem_false {α : Type} (o : Option α) (f : α → Bool) :
    (false ∉ o.elim [] (fun v => [f v])) ↔
      ∀ v, o = some v → f v = true := by
  cases o <;> simp

/-- The matches-list entry of a condition-guarded filter contains no false
entry exactly when the condition implies the filter matches. -/
theorem condList_not_mem_false (c b : Bool) :
    (false ∉ (if c = true then [b] else ([] : List Bool))) ↔
      (c = true → b = true) := by
  cases c <;> cases b <;> simp

/-- A successful boolean result is true exactly when it is. -/
theorem isOkTrue_ok (b : Bool) : isOkTrue (.ok b) = b := by
  cases b <;> rfl

/-- C2: the measurement-group getters have AND filter semantics.  A
successful `get_planar_roi_measurement_groups` or
`get_image_measurement_groups` call returns exactly the located groups
that are classified as the requested kind and pass the per-group filter
evaluation (in document order); the per-group evaluation is the
conjunction of the supplied filter predicates (absent filters are
vacuous); and with no filters every classified group is returned. -/
theorem measurement_group_query_and_semantics :
    (∀ (root : CItem) (tu : Option String) (ft fs rt : Option Code)
        (gt : Option (GraphicTypeValues ⊕ GraphicTypeValues3D))
        (iu cu : Option String) (l : List CItem),
      getPlanarRoiMeasurementGroups root tu ft fs rt gt iu cu = .ok l →
      l = (findMeasurementGroups root).filter
        (fun g => isPlanarCandidate g &&
          isOkTrue (planarGroupMatches tu ft fs rt gt iu cu g))) ∧
    (∀ root : CItem,
      getPlanarRoiMeasurementGroups root none none none none none none
          none =
        .ok ((findMeasurementGroups root).filter
          (fun g => isPlanarCandidate g))) ∧
    (∀ (tu : Option String) (ft fs rt : Option Code)
        (gt : Option (GraphicTypeValues ⊕ GraphicTypeValues3D))
        (iu cu : Option String) (g : CItem) (frt : Code) (ri : CItem),
      getPlanarRoiReferenceItem g = .ok (frt, ri) →
      (planarGroupMatches tu ft fs rt gt iu cu g = .ok true ↔
        ((∀ v, ft = some v → containsCodeItems g Codes.Finding (some v)
            (some RelationshipType.CONTAINS) = true) ∧
         (∀ v, fs = some v → containsCodeItems g Codes.FindingSite
            (some v) (some RelationshipType.HAS_CONCEPT_MOD) = true) ∧
         (∀ v, tu = some v → containsUidrefItems g
            Codes.TrackingUniqueIdentifier (some v)
            (some RelationshipType.HAS_OBS_CONTEXT) = true) ∧
         (∀ v, rt = some v → frt = v) ∧
         (∀ gv, gt = some (Sum.inl gv) →
            ri.data.valueType = ValueType.SCOORD ∧
            parseGraphicType ri.data.graphicType = .ok gv) ∧
         (∀ gv, gt = some (Sum.inr gv) →
            ri.data.valueType = ValueType.SCOORD3D ∧
            parseGraphicType3D ri.data.graphicType = .ok gv) ∧
         ((iu.isSome || cu.isSome) = true →
            planarUidsMatch g ri frt cu iu = true)))) ∧
    (∀ (root : CItem) (tu : Option String) (ft fs : Option Code)
        (iu cu : Option String) (l : List CItem),
      getImageMeasurementGroups root tu ft fs iu cu = .ok l →
      l = (findMeasurementGroups root).filter
        (fun g => isImageCandidate g &&
          imageGroupMatches tu ft fs iu cu g)) ∧
    (∀ root : CItem,
      getImageMeasurementGroups root none none none none none =
        .ok ((findMeasurementGroups root).filter
          (fun g => isImageCandidate g))) ∧
    (∀ (tu : Option String) (ft fs : Option Code)
        (iu cu : Option String) (g : CItem),
      (imageGroupMatches tu ft fs iu cu g = true ↔
        ((∀ v, ft = some v → containsCodeItems g Codes.Finding (some v)
            (some RelationshipType.CONTAINS) = true) ∧
         (∀ v, fs = some v → containsCodeItems g Codes.FindingSite
            (some v) (some RelationshipType.HAS_CONCEPT_MOD) = true) ∧
         (∀ v, tu = some v → containsUidrefItems g
            Codes.TrackingUniqueIdentifier (some v)
            (some RelationshipType.HAS_OBS_CONTEXT) = true) ∧
         ((iu.isSome || cu.isSome) = true →
            containsImageItems g (some Codes.SourceCode) cu iu
              (some RelationshipType.CONTAINS) = true)))) := by
  refine ⟨?_, ?_, ?_, ?_, ?_, ?_⟩
  · intro root tu ft fs rt gt iu cu l h
    unfold getPlanarRoiMeasurementGroups at h
    cases hv : validatePlanarArgs rt gt iu cu with
    | error e => rw [hv] at h; simp [bind, Except.bind] at h
    | ok u =>
      rw [hv] at h
      simp only [bind, Except.bind] at h
      have heq := filterGroupsM_ok planarClassify
        (planarGroupMatches tu ft fs rt gt iu cu)
        (findMeasurementGroups root) [] l h
      rw [heq]
      simp [isOkTrue_planarClassify]
  · intro root
    have hval : validatePlanarArgs none none none none = .ok () := rfl
    unfold getPlanarRoiMeasurementGroups
    rw [hval]
    simp only [bind, Except.bind]
    rw [filterGroupsM_total_ok planarClassify
      (planarGroupMatches none none none none none none none)
      (findMeasurementGroups root)
      (fun g hg =>
        planarClassify_isOk g (mem_findMeasurementGroups root g hg).2
          (mem_findMeasurementGroups root g hg).1)
      (fun g _ => planarGroupMatches_none g) []]
    simp [isOkTrue_planarClassify]
  · intro tu ft fs rt gt iu cu g frt ri hre
    rcases gt with _ | gv | gv
    · rcases rt with _ | rtv <;> rcases iu with _ | iuv <;>
        rcases cu with _ | cuv <;>
        simp [planarGroupMatches, hre, bind, Except.bind, pure,
          Except.pure, List.all_append, optList_all, condList_all,
          optList_not_mem_false, condList_not_mem_false]
    · rcases rt with _ | rtv <;> rcases iu with _ | iuv <;>
        rcases cu with _ | cuv <;>
        by_cases hsc : ri.data.valueType = ValueType.SCOORD <;>
        cases hpg : parseGraphicType ri.data.graphicType <;>
        simp [planarGroupMatches, hre, hsc, hpg, bind, Except.bind, pure,
          Except.pure, List.all_append, optList_all, condList_all,
          optList_not_mem_false, condList_not_mem_false]
    · rcases rt with _ | rtv <;> rcases iu with _ | iuv <;>
        rcases cu with _ | cuv <;>
        by_cases hsc : ri.data.valueType = ValueType.SCOORD3D <;>
        cases hpg : parseGraphicType3D ri.data.graphicType <;>
        simp [planarGroupMatches, hre, hsc, hpg, bind, Except.bind, pure,
          Except.pure, List.all_append, optList_all, condList_all,
          optList_not_mem_false, condList_not_mem_false]
  · intro root tu ft fs iu cu l h
    unfold getImageMeasurementGroups at h
    have heq := filterGroupsM_ok imageClassify
      (fun g => .ok (imageGroupMatches tu ft fs iu cu g))
      (findMeasurementGroups root) [] l h
    rw [heq]
    simp [isOkTrue_imageClassify, isOkTrue_ok]
  · intro root
    unfold getImageMeasurementGroups
    rw [filterGroupsM_total_ok imageClassify
      (fun g => .ok (imageGroupMatches none none none none none g))
      (findMeasurementGroups root)
      (fun g hg =>
        imageClassify_isOk g (mem_findMeasurementGroups root g hg).2
          (mem_findMeasurementGroups root g hg).1)
      (fun g _ => by simp only []; rw [imageGroupMatches_none]) []]
    simp [isOkTrue_imageClassify]
  · intro tu ft fs iu cu g
    simp [imageGroupMatches, List.all_append, optList_all, condList_all,
      optList_not_mem_false, condList_not_mem_false]

/-- Closed witness for C2 at a concrete report: the planar getter with a
finding-type filter returns exactly the filtered planar group. -/
theorem measurement_group_query_and_semantics_witness :
    [exGroup1410] = (findMeasurementGroups exReport).filter
      (fun g => isPlanarCandidate g &&
        isOkTrue (planarGroupMatches none (some exFindingValue) none none
          none none none g)) := by
  exact measurement_group_query_and_semantics.1 exReport none
    (some exFindingValue) none none none none none [exGroup1410] rfl

/-- Closed witness for the C4 characterization at a concrete group with one
volume-surface child: the heuristic classifies it as volumetric. -/
theorem contains_volumetric_rois_characterization_witness :
    containsVolumetricRois exGroupVolumeSurface = .ok true := by
  have h :=
    contains_volumetric_rois_characterization exGroupVolumeSurface rfl rfl
  rw [h]
  rfl

end HighDicom
